import Mathlib

/-!
Verification development for the ToyCComp compiler.

The definitions below are a shallow embedding of the C sources:
pure functions become Lean functions, the process-global mutable state of
the code generator and the scanner becomes explicit state passing, and
fatal `debug_print(SEV_ERROR, ...); exit(n)` sites become `Except` errors
carrying the exit code used at that site.  C undefined behaviour (reading
an uninitialized variable, dereferencing NULL, indexing out of bounds) is
modelled by dedicated error values so that it is distinguishable from a
clean diagnostic.

Primitive C types are the four singletons of `__supported_primative_types`
(datatype.c); derived types are fresh heap allocations.  Pointer equality
against a singleton (`left == DATATYPE_LONG`) therefore corresponds to
structural equality with the `Datatype.prim` constructor, which a freshly
allocated derived type can never satisfy.
-/

/-- Primitive type tags, mirroring `Datatype_Primative_e` in datatype.h. -/
inductive Prim where
  | void
  | char
  | int
  | long
deriving DecidableEq, Repr

/-- Bit width of each primitive, from `__supported_primative_types`
    (`void=0, char=8, int=32, long=64`). -/
def Prim.width : Prim → Nat
  | .void => 0
  | .char => 8
  | .int => 32
  | .long => 64

/-- Name string of each primitive, from `__supported_primative_types`. -/
def Prim.str : Prim → String
  | .void => "void"
  | .char => "char"
  | .int => "int"
  | .long => "long"

/-- `Datatype_t` (datatype.h).  `prim p` is the immutable singleton for
    primitive `p`; `derived` is a freshly `malloc`ed record as produced by
    `datatype_get_pointer_of` / `datatype_deref_pointer` / array
    declarations.  `pointer_level` is the C `__int8_t` field (signed, so an
    `Int`); `size` is the bit width; `base_type` points at another
    datatype (in all reachable states a primitive singleton) or is NULL. -/
inductive Datatype where
  | prim (p : Prim)
  | derived (name : String) (size : Nat) (pointer_level : Int)
      (array_size : Nat) (base_type : Option Datatype)
deriving Repr

/-- Structural equality test on datatypes (the derive handler does not
    support the nesting through `Option`, so it is written out). -/
def Datatype.beq : Datatype → Datatype → Bool
  | .prim p, .prim q => p == q
  | .derived n1 s1 pl1 a1 b1, .derived n2 s2 pl2 a2 b2 =>
    n1 == n2 && s1 == s2 && pl1 == pl2 && a1 == a2 &&
      (match b1, b2 with
       | none, none => true
       | some x, some y => Datatype.beq x y
       | _, _ => false)
  | _, _ => false

theorem Datatype.beq_iff : ∀ a b : Datatype, Datatype.beq a b = true ↔ a = b
  | .prim p, .prim q => by simp [Datatype.beq]
  | .prim _, .derived .. => by simp [Datatype.beq]
  | .derived .., .prim _ => by simp [Datatype.beq]
  | .derived n1 s1 pl1 a1 none, .derived n2 s2 pl2 a2 none => by
    simp [Datatype.beq, and_assoc]
  | .derived n1 s1 pl1 a1 none, .derived n2 s2 pl2 a2 (some y) => by
    simp [Datatype.beq]
  | .derived n1 s1 pl1 a1 (some x), .derived n2 s2 pl2 a2 none => by
    simp [Datatype.beq]
  | .derived n1 s1 pl1 a1 (some x), .derived n2 s2 pl2 a2 (some y) => by
    simp [Datatype.beq, Datatype.beq_iff x y, and_assoc]

instance : DecidableEq Datatype :=
  fun a b => decidable_of_iff _ (Datatype.beq_iff a b)

instance {ε α : Type} [DecidableEq ε] [DecidableEq α] :
    DecidableEq (Except ε α) := fun a b =>
  match a, b with
  | .ok x, .ok y =>
    if h : x = y then .isTrue (by rw [h]) else
      .isFalse (fun hc => by cases hc; exact h rfl)
  | .ok _, .error _ => .isFalse (fun hc => by cases hc)
  | .error _, .ok _ => .isFalse (fun hc => by cases hc)
  | .error e, .error f =>
    if h : e = f then .isTrue (by rw [h]) else
      .isFalse (fun hc => by cases hc; exact h rfl)

/-- Field read `t->name`. -/
def Datatype.name : Datatype → String
  | .prim p => p.str
  | .derived n _ _ _ _ => n

/-- Field read `t->size`. -/
def Datatype.size : Datatype → Nat
  | .prim p => p.width
  | .derived _ s _ _ _ => s

/-- Field read `t->pointer_level` (0 for the primitive singletons). -/
def Datatype.pointer_level : Datatype → Int
  | .prim _ => 0
  | .derived _ _ pl _ _ => pl

/-- Field read `t->array_size` (0 for the primitive singletons). -/
def Datatype.array_size : Datatype → Nat
  | .prim _ => 0
  | .derived _ _ _ a _ => a

/-- Field read `t->base_type` (NULL for the primitive singletons). -/
def Datatype.base_type : Datatype → Option Datatype
  | .prim _ => none
  | .derived _ _ _ _ b => b

/-- `DATATYPE_VOID` (`&__supported_primative_types[0]`). -/
def DATATYPE_VOID : Datatype := .prim .void

/-- `DATATYPE_CHAR`. -/
def DATATYPE_CHAR : Datatype := .prim .char

/-- `DATATYPE_INT`. -/
def DATATYPE_INT : Datatype := .prim .int

/-- `DATATYPE_LONG`. -/
def DATATYPE_LONG : Datatype := .prim .long

/-- `datatype_get_primative_type` (datatype.c): index into the singleton
    table. -/
def datatype_get_primative_type : Prim → Datatype := .prim

/-- Fatal-error sites of the compiler that the claims touch, each carrying
    the exit status used at that site via `CompErr.exitCode`.  The
    `nullDeref` and `uninitRead` values model C undefined behaviour
    (a crash, not a clean diagnostic). -/
inductive CompErr where
  | datatypeMix        -- "[DATATYPE] Can't mix expressions of types ..", exit(1)
  | datatypeBase       -- "[DATATYPE] Can't assign type .. to ..", exit(1)
  | voidInExpr         -- "[DATATYPE] Can't use void in an expression", exit(1)
  | narrowAssign       -- "[DATATYPE] Can't assign .. to ..", exit(1)
  | derefNonPointer    -- "[DATATYPE] Can't defrence ..", exit(1)
  | derefTooDeep       -- "[DATATYPE] Can't defrence .. n times", exit(1)
  | signedIntLit       -- "[EXPR] Signed numbers aren't supported yet!!", exit(1)
  | breakOutsideLoop   -- "[STMT] Can't call a break outside a loop context", exit(1)
  | mustReturnValue    -- "[STMT] Must return a .. type", exit(1)
  | outOfRegisters     -- "[ASM] Out of registers!", exit(1)
  | cantFreeSpecial    -- "[ASM] Can't free special register ..", exit(1)
  | doubleFree         -- "[ASM] Error trying to free register ..", exit(1)
  | bssRedefinition    -- "[ASM] Redefinition of an existing bss symbol ..", exit(0)
  | bssSymbolMissing   -- "[ASM] Symbol is not defined before!!", exit(1)
  | unexpectedNodeCG   -- "[CG] Unexpected node: ..", exit(0)
  | unexpectedDeclCG   -- "[CG] Unexpected declaration type found", exit(1)
  | unexpectedExprCG   -- "[CG] Unexpected type: ..", exit(1)
  | unsupportedLvalue  -- "[CG] Unsupported lvalue type ..", exit(1)
  | nullDeref          -- C dereferences a NULL pointer (crash)
  | uninitRead         -- C reads an uninitialized variable / OOB index (UB)
deriving DecidableEq, Repr

/-- Exit status passed to `exit()` at each fatal site.  `generate_statement`'s
    default branch (codegen.c:268) and `asm_add_global_var`'s redefinition
    branch (asm.c:231) call `exit(0)`; every other diagnosed error calls
    `exit(1)`. -/
def CompErr.exitCode : CompErr → Nat
  | .bssRedefinition => 0
  | .unexpectedNodeCG => 0
  | _ => 1

/-- `check_pointer_levels` (part_006, lines 77-113).  The long/pointer
    tolerance compares against the `long` singleton by pointer identity,
    i.e. structurally against `Datatype.prim .long`. -/
def check_pointer_levels (left right : Datatype) : Except CompErr Unit :=
  if (left.pointer_level > 0 ∧ right = datatype_get_primative_type .long) ∨
     (right.pointer_level > 0 ∧ left = datatype_get_primative_type .long) then
    .ok ()
  else if left.pointer_level ≠ right.pointer_level then
    .error .datatypeMix
  else if left.pointer_level > 0 ∧ right.pointer_level > 0 ∧
          left.base_type ≠ right.base_type then
    .error .datatypeBase
  else
    .ok ()

/-- `datatype_expr_type` (part_006, lines 116-137).  The `left == right`
    fast path is pointer equality in C; on the singletons that coincides
    with structural equality, and for structurally equal fresh derived
    records the slow path returns the same result. -/
def datatype_expr_type (left right : Datatype) : Except CompErr Datatype :=
  if left = right then .ok left
  else if (left = DATATYPE_VOID ∧ right ≠ DATATYPE_VOID) ∨
          (right = DATATYPE_VOID ∧ left ≠ DATATYPE_VOID) then
    .error .voidInExpr
  else if left.size > right.size then .ok left
  else .ok right

/-- `datatype_check_assign_expr_type` (part_006, lines 140-158). -/
def datatype_check_assign_expr_type (left right : Datatype) :
    Except CompErr Unit :=
  match check_pointer_levels left right with
  | .error e => .error e
  | .ok () =>
    if (left = DATATYPE_VOID ∧ right ≠ DATATYPE_VOID) ∨
       (right = DATATYPE_VOID ∧ left ≠ DATATYPE_VOID) then
      .error .voidInExpr
    else if left.size < right.size then
      .error .narrowAssign
    else
      .ok ()

/-- `datatype_get_pointer_of` (part_006, lines 165-176): fresh derived
    type of width 64 with one more pointer level; the base is the argument
    itself when it is a primitive, otherwise the argument's base. -/
def datatype_get_pointer_of (t : Datatype) : Datatype :=
  .derived t.name 64 (t.pointer_level + 1) 0
    (match t.base_type with
     | none => some t
     | some b => some b)

/-- `datatype_deref_pointer` (part_006, lines 178-209).  Reading the size
    of a NULL `base_type` when the level reaches 0 is a NULL dereference. -/
def datatype_deref_pointer (t : Datatype) (k : Int) : Except CompErr Datatype :=
  if t.pointer_level = 0 then .error .derefNonPointer
  else if t.pointer_level - k < 0 then .error .derefTooDeep
  else if t.pointer_level - k = 0 then
    match t.base_type with
    | none => .error .nullDeref
    | some b => .ok (.derived t.name b.size 0 0 none)
  else .ok (.derived t.name 64 (t.pointer_level - k) 0 t.base_type)

example : datatype_check_assign_expr_type DATATYPE_VOID DATATYPE_VOID = .ok () := by
  decide

example : datatype_check_assign_expr_type DATATYPE_INT DATATYPE_LONG =
    .error .narrowAssign := by decide

example : datatype_check_assign_expr_type DATATYPE_LONG
    (datatype_get_pointer_of DATATYPE_CHAR) = .ok () := by decide

/-- Token kinds, `TokenType_e` (scanner.h).  The enum in the checked-in
    header lags behind the sources; the kinds below are the ones the
    current scanner (part_015) and parser actually produce.  `empty` is
    the sentinel marking uninitialized token slots; `comma` is a distinct
    kind. -/
inductive TokenType where
  | empty | eof
  | plus | minus | star | slash
  | gt | ge | lt | le | eq | ne
  | intlit | id | strlit
  | kwInt | kwChar | kwVoid | kwLong
  | kwIf | kwElse | kwWhile | kwBreak | kwDo | kwFor | kwReturn
  | semicolon | comma | lparen | rparen | lbrace | rbrace
  | lbracket | rbracket | amper | assign
deriving DecidableEq, Repr

/-- `ASTNode_type_e` (part_004 / ast.h). -/
inductive ASTNodeType where
  | glue | empty
  | add | subtract | mult | div
  | comp_gt | comp_ge | comp_lt | comp_le | comp_eq | comp_ne
  | int_lit | str_lit
  | print | assign | var | datatype
  | addressof | ptrdref | offset_scale | array_index
  | var_decl | func_decl
  | func_call | ret
  | ifStmt | whileStmt | doWhile | forStmt | brk
deriving DecidableEq, Repr

/-- `ASTCheckLoopContext` (ast.h): `t >= AST_WHILE && t <= AST_FOR`, i.e.
    exactly the while / do-while / for kinds in the enum order. -/
def ASTNodeType.isLoopContext : ASTNodeType → Bool
  | .whileStmt => true
  | .doWhile => true
  | .forStmt => true
  | _ => false

/-- `ASTNodeValue` (part_004): the `int num` / `char *str` union. -/
inductive ASTVal where
  | num (n : Int)
  | str (s : String)
deriving DecidableEq, Repr

/-- `ASTNode_t` (part_004).  The `parent` back-pointer is omitted: it is
    written on construction and read only by `get_loop_context` at code
    generation, which this model expresses by passing the enclosing loop's
    end label down the statement walk (the walk visits loop bodies under
    exactly the loop node whose `value` was just set). -/
inductive ASTNode where
  | mk (ntype : ASTNodeType) (left : Option ASTNode) (right : Option ASTNode)
      (next : Option ASTNode) (value : ASTVal) (expr_type : Option Datatype)
deriving Repr

/-- Field read `node->type`. -/
def ASTNode.ntype : ASTNode → ASTNodeType
  | .mk t _ _ _ _ _ => t

/-- Field read `node->left`. -/
def ASTNode.left : ASTNode → Option ASTNode
  | .mk _ l _ _ _ _ => l

/-- Field read `node->right`. -/
def ASTNode.right : ASTNode → Option ASTNode
  | .mk _ _ r _ _ _ => r

/-- Field read `node->next`. -/
def ASTNode.next : ASTNode → Option ASTNode
  | .mk _ _ _ n _ _ => n

/-- Field read `node->value`. -/
def ASTNode.value : ASTNode → ASTVal
  | .mk _ _ _ _ v _ => v

/-- Field read `node->expr_type`. -/
def ASTNode.expr_type : ASTNode → Option Datatype
  | .mk _ _ _ _ _ e => e

/-- Field write `node->expr_type = dt`. -/
def ASTNode.setExprType : ASTNode → Option Datatype → ASTNode
  | .mk t l r n v _, dt => .mk t l r n v dt

/-- Field write `node->next = nxt`. -/
def ASTNode.setNext : ASTNode → Option ASTNode → ASTNode
  | .mk t l r _ v e, nxt => .mk t l r nxt v e

/-- `ast_create_node` (ast.c): fresh node with NULL `next` and NULL
    `expr_type`; the parent writes on the children are not represented
    (see `ASTNode`). -/
def ast_create_node (t : ASTNodeType) (l r : Option ASTNode) (v : ASTVal) :
    ASTNode :=
  .mk t l r none v none

/-- `ast_create_leaf_node` (ast.c). -/
def ast_create_leaf_node (t : ASTNodeType) (v : ASTVal) : ASTNode :=
  ast_create_node t none none v

/-- `expr_val_intlit` (expr.c, lines 127-147), with the already-scanned
    token's integer payload as argument: values in `[0,256)` are typed
    `char`, values `>= 256` are typed `int`, and a negative payload is the
    fatal "signed numbers" diagnostic. -/
def expr_val_intlit_core (v : Int) : Except CompErr ASTNode :=
  match (if 0 ≤ v ∧ v < 256 then
           .ok (datatype_get_primative_type .char)
         else if 256 ≤ v then
           .ok (datatype_get_primative_type .int)
         else
           .error .signedIntLit : Except CompErr Datatype) with
  | .error e => .error e
  | .ok dt => .ok ((ast_create_leaf_node .int_lit (.num v)).setExprType (some dt))

/-- `expr_val_var_index` (expr.c, lines 176-209) after its two recursive
    parses: `var` is the node returned by `expr_val_var` (carrying the
    array variable's type) and `index` the node returned by
    `expr_comparison_expression`.  The scale literal is built from
    `dt->size / 8` where `dt` is the *variable's own type*, and the final
    PTRDREF node is typed with `datatype_deref_pointer` of the ADD node's
    type. -/
def expr_val_var_index_core (var index : ASTNode) : Except CompErr ASTNode :=
  match var.expr_type with
  | none => .error .nullDeref
  | some dt =>
    let addr := (ast_create_node .addressof (some var) none (.num 0)).setExprType
      (some dt)
    let scale := ast_create_leaf_node .int_lit (.num (dt.size / 8))
    let mulNode := ast_create_node .mult (some index) (some scale) (.num 0)
    let addNode := ast_create_node .add (some addr) (some mulNode) (.num 0)
    match index.expr_type with
    | none => .error .nullDeref
    | some it =>
      match datatype_expr_type dt it with
      | .error e => .error e
      | .ok et =>
        match datatype_deref_pointer et 1 with
        | .error e => .error e
        | .ok dt2 =>
          .ok ((ast_create_node .ptrdref
                  (some (addNode.setExprType (some et))) none (.num 0)).setExprType
                (some dt2))

/-- Body of the `+`/`-` loop of `expr_additive_expression` (expr.c, lines
    305-341) once both operands are parsed: when either side has
    `pointer_level > 0` the non-pointer side (the right one when both are
    pointers) is wrapped in an OFFSET_SCALE node whose value is 8 for a
    pointer-to-pointer and `base_type->size / 8` otherwise, keeping the
    wrapped side's computed type; then the ADD/SUB node is built and typed
    by `datatype_expr_type`. -/
def expr_additive_combine (t : ASTNodeType) (left right : ASTNode) :
    Except CompErr ASTNode :=
  match left.expr_type, right.expr_type with
  | some lt, some rt =>
    let wrap : Except CompErr (ASTNode × ASTNode) :=
      if lt.pointer_level > 0 ∨ rt.pointer_level > 0 then
        let ptrType := if lt.pointer_level > 0 then lt else rt
        match (if ptrType.pointer_level > 1 then .ok 8
               else match ptrType.base_type with
                    | none => .error CompErr.nullDeref
                    | some b => .ok (b.size / 8) : Except CompErr Nat) with
        | .error e => .error e
        | .ok offset =>
          if lt.pointer_level > 0 then
            .ok (left, (ast_create_node .offset_scale (some right) none
                  (.num offset)).setExprType (some rt))
          else
            .ok ((ast_create_node .offset_scale (some left) none
                  (.num offset)).setExprType (some lt), right)
      else
        .ok (left, right)
    match wrap with
    | .error e => .error e
    | .ok (left2, right2) =>
      match datatype_expr_type lt rt with
      | .error e => .error e
      | .ok et =>
        .ok ((ast_create_node t (some left2) (some right2) (.num 0)).setExprType
              (some et))
  | _, _ => .error .nullDeref

/-- Modelled from the spec: `peek_at(lexer, n)` — "lookahead at position n,
    0-indexed" — whose implementation (`scanner_peek_at`) is not among the
    checked-in sources.  The upcoming token stream is the list `toks`;
    looking past its end yields the scanner's end-of-file token. -/
def scanner_peek_at_model (toks : List TokenType) (n : Nat) : TokenType :=
  toks.getD n .eof

/-- Stop set of the lookahead loop in `expr_expression` (expr.c, lines
    468-476): TOK_ASSIGN, TOK_SEMICOLON, TOK_EMPTY, TOK_RPAREN, TOK_EOF. -/
def expr_entry_terminators : List TokenType :=
  [.assign, .semicolon, .empty, .rparen, .eof]

/-- The `do { peek_at(i); i++ } while (not a terminator)` loop of
    `expr_expression`, returning the token kind the loop stopped on. -/
def expr_entry_scan (toks : List TokenType) (i : Nat) : TokenType :=
  if h : scanner_peek_at_model toks i ∈ expr_entry_terminators then
    scanner_peek_at_model toks i
  else expr_entry_scan toks (i + 1)
termination_by toks.length - i
decreasing_by
  have hi : i < toks.length := by
    by_contra hge
    exact h (by simp [scanner_peek_at_model,
      List.getElem?_eq_none (le_of_not_lt hge), expr_entry_terminators])
  omega

/-- Choice made by `expr_expression` (expr.c, lines 478-485): parse an
    assignment exactly when the stopping token is TOK_ASSIGN, otherwise a
    comparison expression. -/
def expr_expression_chooses_assignment (toks : List TokenType) : Bool :=
  expr_entry_scan toks 0 = .assign

/-- Modelled from the spec: the claimed stop set for the expression-entry
    lookahead — "`=`, `;`, `,`, `)`, EOF". -/
def spec_expr_entry_terminators : List TokenType :=
  [.assign, .semicolon, .comma, .rparen, .eof]

/-- Modelled from the spec: the first token of the stream belonging to the
    claimed stop set (end of stream reads as EOF). -/
def spec_expr_entry_scan (toks : List TokenType) : TokenType :=
  (toks.find? (fun t => t ∈ spec_expr_entry_terminators)).getD .eof

/-- Statement shapes relevant to the parser's `in_loop` flag (stmt.c):
    a `break;`, the three loop forms with their body statement lists, an
    `if` with its two branch lists (parsed without touching the flag), and
    any other statement. -/
inductive PStmt where
  | brk
  | whileLoop (body : List PStmt)
  | doWhileLoop (body : List PStmt)
  | forLoop (body : List PStmt)
  | ifStmt (thenBody elseBody : List PStmt)
  | plain
deriving Repr

mutual

/-- Effect of parsing one statement on the file-scope `in_loop` flag
    (stmt.c, line 8): `stmt_break` (lines 220-230) is fatal when the flag
    is false; `stmt_while` / `stmt_do_while` / `stmt_for` (lines 146-218)
    set the flag to `true` on entry, parse their body under it, and set it
    to `false` on exit; `stmt_if` (lines 98-145) never writes the global,
    so whatever its branches leave in it persists: the else branch is
    parsed under the flag the then branch left, and the statement's result
    is the flag the last parsed branch left.  Returns the flag value after
    the statement. -/
def stmt_parse_flag (inLoop : Bool) : PStmt → Except CompErr Bool
  | .brk => if inLoop then .ok inLoop else .error .breakOutsideLoop
  | .whileLoop body =>
    match stmts_parse_flag true body with
    | .error e => .error e
    | .ok _ => .ok false
  | .doWhileLoop body =>
    match stmts_parse_flag true body with
    | .error e => .error e
    | .ok _ => .ok false
  | .forLoop body =>
    match stmts_parse_flag true body with
    | .error e => .error e
    | .ok _ => .ok false
  | .ifStmt thenBody elseBody =>
    match stmts_parse_flag inLoop thenBody with
    | .error e => .error e
    | .ok f1 => stmts_parse_flag f1 elseBody
  | .plain => .ok inLoop

/-- Threads the flag through a statement sequence (`stmt_statements`). -/
def stmts_parse_flag (inLoop : Bool) : List PStmt → Except CompErr Bool
  | [] => .ok inLoop
  | s :: rest =>
    match stmt_parse_flag inLoop s with
    | .error e => .error e
    | .ok f => stmts_parse_flag f rest

end

/-- `SymbolType_e` (part_018). -/
inductive SymbolType where
  | var
  | func
deriving DecidableEq, Repr

/-- `Symbol_t` (part_018): the fields codegen and `stmt_return` read. -/
structure Symbol_t where
  sym_name : String
  sym_type : SymbolType
  data_type : Datatype
deriving DecidableEq, Repr

/-- `symtab_get_symbol` (part_017) on the global table: the C code indexes
    the backing array unchecked, so an out-of-range index is an
    uninitialized read. -/
def symtab_get_symbol (tab : List Symbol_t) (i : Int) : Except CompErr Symbol_t :=
  if h : 0 ≤ i ∧ i.toNat < tab.length then .ok (tab.get ⟨i.toNat, h.2⟩)
  else .error .uninitRead

/-- `stmt_return` (stmt.c, lines 232-253) after `scanner_peek`: `peeked`
    is the token kind after `return`; when it is a semicolon the function
    requires a void-returning enclosing function and builds a RETURN leaf
    (no operand, type void); otherwise `expr` is the node parsed by
    `expr_expression`, checked assignable to the return type, and hung off
    the RETURN node's left child. -/
def stmt_return_node (decl_current_func : Int) (func : Symbol_t)
    (peeked : TokenType) (expr : Option ASTNode) : Except CompErr ASTNode :=
  if peeked = .semicolon then
    if func.data_type ≠ DATATYPE_VOID then .error .mustReturnValue
    else
      .ok ((ast_create_leaf_node .ret (.num decl_current_func)).setExprType
            (some DATATYPE_VOID))
  else
    match expr with
    | none => .error .nullDeref
    | some e =>
      match e.expr_type with
      | none => .error .nullDeref
      | some et =>
        match datatype_check_assign_expr_type func.data_type et with
        | .error err => .error err
        | .ok () =>
          .ok ((ast_create_node .ret (some e) none
                (.num decl_current_func)).setExprType (some et))

/-- `MAX_PUTBACK_BUFFER_SIZE` (scanner.h, line 7). -/
def MAX_PUTBACK_BUFFER_SIZE : Int := 255

/-- The ring-buffer bookkeeping fields of `Scanner_t` (scanner.h, lines
    101-111).  Token contents never influence these fields, so the index
    dynamics are modelled content-free. -/
structure ScanBuf where
  buffer_head : Int
  buffer_tail : Int
  buffer_size : Int
deriving DecidableEq, Repr

/-- Buffer fields set by `scanner_init` (part_015, lines 146-165):
    `head = 0`, `tail = 1`, `size = 0`. -/
def scanner_init_buf : ScanBuf := ⟨0, 1, 0⟩

/-- Index into `putback_tok_buffer` written by `scanner_putback`
    (part_015, line 310): `buffer_tail - 1`. -/
def scanner_putback_store_index (s : ScanBuf) : Int :=
  s.buffer_tail - 1

/-- Buffer effect of `scanner_putback` (part_015, lines 308-313): store at
    `buffer_tail - 1`, then advance `buffer_tail` modulo 255 and grow
    `buffer_size`. -/
def scanner_putback_buf (s : ScanBuf) : ScanBuf :=
  ⟨s.buffer_head, (s.buffer_tail + 1) % MAX_PUTBACK_BUFFER_SIZE,
    s.buffer_size + 1⟩

/-- Buffer effect of `__scanner_scan` with the cache honoured (part_015,
    lines 167-176): when the buffer is non-empty the head advances modulo
    255 and the size shrinks; otherwise tokens come from the character
    stream and the buffer fields are untouched. -/
def scanner_scan_buf (s : ScanBuf) : ScanBuf :=
  if s.buffer_size > 0 then
    ⟨(s.buffer_head + 1) % MAX_PUTBACK_BUFFER_SIZE, s.buffer_tail,
      s.buffer_size - 1⟩
  else s

/-- Buffer effect of `scanner_peek` (part_015, lines 315-326): on an empty
    buffer it scans (raw path, no buffer change) and puts the token back;
    otherwise it only copies the head token. -/
def scanner_peek_buf (s : ScanBuf) : ScanBuf :=
  if s.buffer_size = 0 then scanner_putback_buf s else s

/-- Buffer effect of `scanner_cache_tok` (part_015, lines 334-340): a raw
    scan (`ignore_cache = true`, no buffer change) followed by a putback. -/
def scanner_cache_tok_buf (s : ScanBuf) : ScanBuf :=
  scanner_putback_buf s

/-- One scanner operation as seen by the putback buffer. -/
inductive ScanOp where
  | scan
  | peek
  | cache
deriving DecidableEq, Repr

/-- State transition of one operation. -/
def ScanOp.apply (s : ScanBuf) : ScanOp → ScanBuf
  | .scan => scanner_scan_buf s
  | .peek => scanner_peek_buf s
  | .cache => scanner_cache_tok_buf s

/-- Store indices written by `scanner_putback` during one operation:
    a cached scan always puts back, a peek puts back exactly when the
    buffer was empty, a plain scan never does. -/
def ScanOp.store_indices (s : ScanBuf) : ScanOp → List Int
  | .scan => []
  | .peek => if s.buffer_size = 0 then [scanner_putback_store_index s] else []
  | .cache => [scanner_putback_store_index s]

/-- All store indices written over a sequence of operations starting in
    state `s`. -/
def scan_trace_store_indices (s : ScanBuf) : List ScanOp → List Int
  | [] => []
  | op :: rest =>
    op.store_indices s ++ scan_trace_store_indices (op.apply s) rest

/-- Union field read `value.num` (`ASTNodeValue` in part_004).  The node
    kind discipline keeps this read on the `num` arm for every node the
    parser builds. -/
def ASTVal.num_field : ASTVal → Int
  | .num n => n
  | .str _ => 0

/-- Union field read `value.str`. -/
def ASTVal.str_field : ASTVal → String
  | .str s => s
  | .num _ => ""

/-- `bss_symbol` (asm.c, lines 12-17). -/
structure bss_symbol where
  symbol_name : String
  size : Nat
  number_of_items : Nat
deriving DecidableEq, Repr

/-- The process-global mutable state of the code generator and assembly
    writer: the `free_reg` pool (asm.c, line 19, `true` = free), the
    `.bss` symbol list, the label and string-literal counters, the
    `return_called_flag` (codegen.c, line 58) and the symbol table (read
    only during code generation).  The text written to the output file is
    not represented: no claim reads it, and neither does the compiler. -/
structure CGState where
  free_reg : List Bool
  bss_symbols : List bss_symbol
  label_count : Nat
  str_count : Nat
  return_called_flag : Bool
  symtab : List Symbol_t
deriving DecidableEq, Repr

/-- `asm_RAX` (asm.c, line 31).  Registers (`Register` in asm.h, a signed
    byte) are modelled as `Int`; 0-3 are the scratch slots. -/
def asm_RAX : Int := 4

/-- `asm_NoReg` (asm.c, line 32). -/
def asm_NoReg : Int := -1

/-- Initial code-generator state: all four registers free, no `.bss`
    symbols, counters zero. -/
def cg_init_state (tab : List Symbol_t) : CGState :=
  ⟨[true, true, true, true], [], 0, 0, false, tab⟩

/-- `allocate_register` (asm.c, lines 79-92): lowest free slot of the
    four-entry pool, written with the `GLOBAL_REG_COUNT = 4` loop
    unrolled; exhaustion is fatal. -/
def allocate_register (s : CGState) : Except CompErr (Int × CGState) :=
  if s.free_reg.getD 0 false then
    .ok (0, { s with free_reg := s.free_reg.set 0 false })
  else if s.free_reg.getD 1 false then
    .ok (1, { s with free_reg := s.free_reg.set 1 false })
  else if s.free_reg.getD 2 false then
    .ok (2, { s with free_reg := s.free_reg.set 2 false })
  else if s.free_reg.getD 3 false then
    .ok (3, { s with free_reg := s.free_reg.set 3 false })
  else .error .outOfRegisters

/-- `free_register` (asm.c, lines 94-108): freeing a special register or a
    register that is already free is fatal; a negative handle would index
    the pool array out of bounds. -/
def free_register (r : Int) (s : CGState) : Except CompErr CGState :=
  if r ≥ 4 then .error .cantFreeSpecial
  else if r < 0 then .error .uninitRead
  else if s.free_reg.getD r.toNat false then .error .doubleFree
  else .ok { s with free_reg := s.free_reg.set r.toNat true }

/-- `asm_init_register` (asm.c, lines 110-115): allocate and `mov` an
    immediate into it. -/
def asm_init_register (_value : Int) (s : CGState) :
    Except CompErr (Int × CGState) :=
  allocate_register s

/-- `asm_add` / `asm_sub` / `asm_mul` / `asm_div` (asm.c, lines 132-161):
    emit the instruction, free the right operand, return the left. -/
def asm_arith_op (r1 r2 : Int) (s : CGState) :
    Except CompErr (Int × CGState) :=
  match free_register r2 s with
  | .error e => .error e
  | .ok s' => .ok (r1, s')

/-- `asm_comp` (asm.c, lines 163-170), shared by the six `asm_comp_*`
    wrappers: `cmp`, `setCC`, `movzx`, free the right operand, return the
    left. -/
def asm_comp (r1 r2 : Int) (s : CGState) :
    Except CompErr (Int × CGState) :=
  match free_register r2 s with
  | .error e => .error e
  | .ok s' => .ok (r1, s')

/-- `asm_jmp_with_cond` (asm.c, lines 202-207), shared by `asm_jmp_eq` and
    `asm_jmp_ne`: `cmp` against the immediate, conditional jump, free the
    compared register. -/
def asm_jmp_with_cond (r1 : Int) (_comp_val : Int) (_label : Nat)
    (s : CGState) : Except CompErr CGState :=
  free_register r1 s

/-- `asm_generate_label` (asm.c, lines 332-335): `label_count++`. -/
def asm_generate_label (s : CGState) : Nat × CGState :=
  (s.label_count, { s with label_count := s.label_count + 1 })

/-- `get_bss_symbol` (asm.c, lines 34-42). -/
def get_bss_symbol (name : String) (s : CGState) : Option bss_symbol :=
  s.bss_symbols.find? (fun b => b.symbol_name = name)

/-- `asm_add_global_var` (asm.c, lines 224-238): a zero element count is
    recorded as one; redefining an existing `.bss` symbol prints the
    `[ERROR]` diagnostic and calls `exit(0)`. -/
def asm_add_global_var (var_name : String) (size : Nat)
    (number_of_elements : Nat) (s : CGState) : Except CompErr CGState :=
  let n := if number_of_elements = 0 then 1 else number_of_elements
  if (get_bss_symbol var_name s).isSome then .error .bssRedefinition
  else .ok { s with bss_symbols := s.bss_symbols ++ [⟨var_name, size, n⟩] }

/-- `asm_set_global_var` (asm.c, lines 240-257): sized store to the
    symbol, then free the value register. -/
def asm_set_global_var (var_name : String) (r : Int) (s : CGState) :
    Except CompErr CGState :=
  match get_bss_symbol var_name s with
  | none => .error .bssSymbolMissing
  | some _ => free_register r s

/-- `asm_get_global_var` (asm.c, lines 259-280): allocate, look the symbol
    up, zero-extend and load. -/
def asm_get_global_var (var_name : String) (s : CGState) :
    Except CompErr (Int × CGState) :=
  match allocate_register s with
  | .error e => .error e
  | .ok (r, s1) =>
    match get_bss_symbol var_name s1 with
    | none => .error .bssSymbolMissing
    | some _ => .ok (r, s1)

/-- `asm_address_of` (asm.c, lines 282-287): allocate and `lea`. -/
def asm_address_of (_var_name : String) (s : CGState) :
    Except CompErr (Int × CGState) :=
  allocate_register s

/-- `asm_load_mem` (asm.c, lines 289-309): allocate the destination, sized
    load, free the address register. -/
def asm_load_mem (addr : Int) (_size : Nat) (s : CGState) :
    Except CompErr (Int × CGState) :=
  match allocate_register s with
  | .error e => .error e
  | .ok (out, s1) =>
    match free_register addr s1 with
    | .error e => .error e
    | .ok s2 => .ok (out, s2)

/-- `asm_store_mem` (asm.c, lines 311-330): sized store, free the value,
    free the address. -/
def asm_store_mem (addr val : Int) (_size : Nat) (s : CGState) :
    Except CompErr CGState :=
  match free_register val s with
  | .error e => .error e
  | .ok s1 => free_register addr s1

/-- `asm_generate_func_return` (asm.c, lines 357-370): `mov` the value
    into the matching alias of `rax`.  The `free_register(r)` call is
    commented out in the source ("TODO: uncomment this when handling
    register saving"), so the value register stays allocated. -/
def asm_generate_func_return (_r : Int) (_size : Nat) (s : CGState) :
    CGState :=
  s

/-- `asm_generate_func_call` (asm.c, lines 372-392): allocate the result
    slot, move the argument into `rdi` and free it, `call`, and either
    return the result slot or free it and return `asm_NoReg`. -/
def asm_generate_func_call (_func_name : String) (arg1 : Int)
    (need_return : Bool) (s : CGState) : Except CompErr (Int × CGState) :=
  match allocate_register s with
  | .error e => .error e
  | .ok (out, s1) =>
    match (if arg1 ≠ asm_NoReg then free_register arg1 s1 else .ok s1) with
    | .error e => .error e
    | .ok s2 =>
      if need_return then .ok (out, s2)
      else
        match free_register out s2 with
        | .error e => .error e
        | .ok s3 => .ok (asm_NoReg, s3)

/-- Modelled from the spec: `asm_sll` — "sll(reg, k): shift left by
    immediate" — whose implementation is not among the checked-in sources;
    it shifts in place and touches no allocator state. -/
def asm_sll (_r1 : Int) (_val : Nat) (s : CGState) : CGState :=
  s

/-- Modelled from the spec: `asm_generate_string_lit` —
    "generate_string_literal(bytes) → a fresh symbol name for an anonymous
    .data byte sequence" — whose implementation is not among the
    checked-in sources; it mints a name from the monotone string-literal
    counter and touches no allocator state. -/
def asm_generate_string_lit (_bytes : String) (s : CGState) :
    String × CGState :=
  ("__str__" ++ toString s.str_count, { s with str_count := s.str_count + 1 })

/-- Modelled from the spec: `asm_set_global_var_initial_val` —
    "set_global_initial(name, value, kind) (emits .data for inited
    globals)" — whose implementation is not among the checked-in sources;
    it records the initializer and touches no allocator state. -/
def asm_set_global_var_initial_val (_var_name : String) (_value : ASTVal)
    (s : CGState) : CGState :=
  s

theorem ASTNode.sizeOf_pos : ∀ n : ASTNode, 0 < sizeOf n
  | .mk t l r nx v e => by simp

theorem ASTNode.sizeOf_lt_of_left {n l : ASTNode} (h : n.left = some l) :
    sizeOf l < sizeOf n := by
  cases n with
  | mk t lf r nx v e =>
    cases lf with
    | none => simp [ASTNode.left] at h
    | some x =>
      simp [ASTNode.left] at h
      subst h
      simp <;> omega

theorem ASTNode.sizeOf_lt_of_right {n r : ASTNode} (h : n.right = some r) :
    sizeOf r < sizeOf n := by
  cases n with
  | mk t lf rg nx v e =>
    cases rg with
    | none => simp [ASTNode.right] at h
    | some x =>
      simp [ASTNode.right] at h
      subst h
      simp <;> omega

theorem ASTNode.sizeOf_lt_of_next {n nx : ASTNode} (h : n.next = some nx) :
    sizeOf nx < sizeOf n := by
  cases n with
  | mk t lf rg nxt v e =>
    cases nxt with
    | none => simp [ASTNode.next] at h
    | some x =>
      simp [ASTNode.next] at h
      subst h
      simp <;> omega

/-- `generate_expr_addressof` (codegen.c, lines 200-203):
    `asm_address_of(symtab_get_symbol(root->left->value.num)->sym_name)`. -/
def generate_expr_addressof (root : ASTNode) (s : CGState) :
    Except CompErr (Int × CGState) :=
  match root.left with
  | none => .error .nullDeref
  | some l =>
    match symtab_get_symbol s.symtab l.value.num_field with
    | .error e => .error e
    | .ok sym => asm_address_of sym.sym_name s

mutual

/-- `generate_expr` (codegen.c, lines 75-86): function calls and
    address-of are dispatched directly, everything else goes through the
    comparison layer. -/
def generate_expr (root : ASTNode) (s : CGState) :
    Except CompErr (Int × CGState) :=
  match root.ntype with
  | .func_call => generate_expr_fcall root s
  | .addressof => generate_expr_addressof root s
  | _ => generate_expr_comparison root s

termination_by (sizeOf root, 3)
decreasing_by
  all_goals
    first
    | exact Prod.Lex.right _ (by omega)
    | exact Prod.Lex.left _ _ (ASTNode.sizeOf_lt_of_left hl)
    | exact Prod.Lex.left _ _ (ASTNode.sizeOf_lt_of_right hr)

/-- `generate_expr_fcall` (codegen.c, lines 187-198): evaluate the first
    argument when present, then call with `need_return = true`. -/
def generate_expr_fcall (root : ASTNode) (s : CGState) :
    Except CompErr (Int × CGState) :=
  match hl : root.left with
  | none =>
    match symtab_get_symbol s.symtab root.value.num_field with
    | .error e => .error e
    | .ok sym => asm_generate_func_call sym.sym_name asm_NoReg true s
  | some l =>
    match generate_expr l s with
    | .error e => .error e
    | .ok (arg, s1) =>
      match symtab_get_symbol s1.symtab root.value.num_field with
      | .error e => .error e
      | .ok sym => asm_generate_func_call sym.sym_name arg true s1

termination_by (sizeOf root, 2)
decreasing_by
  all_goals
    first
    | exact Prod.Lex.right _ (by omega)
    | exact Prod.Lex.left _ _ (ASTNode.sizeOf_lt_of_left hl)
    | exact Prod.Lex.left _ _ (ASTNode.sizeOf_lt_of_right hr)

/-- `generate_expr_comparison` (codegen.c, lines 88-128): non-comparison
    kinds fall through to the arithmetic layer; comparisons evaluate both
    children and emit `asm_comp_*` (a NULL child crashes `generate_expr`). -/
def generate_expr_comparison (root : ASTNode) (s : CGState) :
    Except CompErr (Int × CGState) :=
  if root.ntype = .comp_eq ∨ root.ntype = .comp_ne ∨ root.ntype = .comp_gt ∨
     root.ntype = .comp_ge ∨ root.ntype = .comp_lt ∨ root.ntype = .comp_le then
    match hl : root.left with
    | none => .error .nullDeref
    | some l =>
      match generate_expr l s with
      | .error e => .error e
      | .ok (rl, s1) =>
        match hr : root.right with
        | none => .error .nullDeref
        | some r =>
          match generate_expr r s1 with
          | .error e => .error e
          | .ok (rr, s2) => asm_comp rl rr s2
  else
    generate_expr_arithmetic root s

termination_by (sizeOf root, 2)
decreasing_by
  all_goals
    first
    | exact Prod.Lex.right _ (by omega)
    | exact Prod.Lex.left _ _ (ASTNode.sizeOf_lt_of_left hl)
    | exact Prod.Lex.left _ _ (ASTNode.sizeOf_lt_of_right hr)

/-- `generate_expr_arithmetic` (codegen.c, lines 130-185): the left and
    right operands are pre-evaluated under the guards of lines 134-142
    (`left` when present unless the node is FUNC_CALL / PTRDREF /
    ARRAY_INDEX, `right` when present unless ARRAY_INDEX), then the switch
    dispatches on the node kind; kinds whose case reads an operand that
    was not computed read an uninitialized C variable.  The default case
    is the `exit(1)` diagnostic. -/
def generate_expr_arithmetic (root : ASTNode) (s : CGState) :
    Except CompErr (Int × CGState) :=
  match (match hl : root.left with
         | some l =>
           if root.ntype ≠ .func_call ∧ root.ntype ≠ .ptrdref ∧
              root.ntype ≠ .array_index then
             match generate_expr l s with
             | .error e => .error e
             | .ok (r, s') => .ok (some r, s')
           else .ok (none, s)
         | none => .ok (none, s) :
          Except CompErr (Option Int × CGState)) with
  | .error e => .error e
  | .ok (oleft, s1) =>
    match (match hr : root.right with
           | some r =>
             if root.ntype ≠ .array_index then
               match generate_expr r s1 with
               | .error e => .error e
               | .ok (rr, s') => .ok (some rr, s')
             else .ok (none, s1)
           | none => .ok (none, s1) :
            Except CompErr (Option Int × CGState)) with
    | .error e => .error e
    | .ok (oright, s2) =>
      match root.ntype with
      | .add | .subtract | .mult | .div =>
        match oleft, oright with
        | some a, some b => asm_arith_op a b s2
        | _, _ => .error .uninitRead
      | .int_lit => asm_init_register root.value.num_field s2
      | .str_lit =>
        match asm_generate_string_lit root.value.str_field s2 with
        | (nm, s3) => asm_address_of nm s3
      | .var =>
        match symtab_get_symbol s2.symtab root.value.num_field with
        | .error e => .error e
        | .ok sym => asm_get_global_var sym.sym_name s2
      | .offset_scale =>
        match oleft with
        | some a =>
          match asm_init_register root.value.num_field s2 with
          | .error e => .error e
          | .ok (off, s3) => asm_arith_op a off s3
        | none => .error .uninitRead
      | .ptrdref =>
        match root.expr_type with
        | none => .error .nullDeref
        | some dt =>
          if dt.pointer_level > 0 then
            generate_expr_ptrdref root s2
          else
            match generate_expr_ptrdref root s2 with
            | .error e => .error e
            | .ok (r, s3) => asm_load_mem r dt.size s3
      | .array_index =>
        match generate_expr_arr_index root s2 with
        | .error e => .error e
        | .ok (r, s3) =>
          match root.expr_type with
          | none => .error .nullDeref
          | some dt => asm_load_mem r dt.size s3
      | _ => .error .unexpectedExprCG

termination_by (sizeOf root, 1)
decreasing_by
  all_goals
    first
    | exact Prod.Lex.right _ (by omega)
    | exact Prod.Lex.left _ _ (ASTNode.sizeOf_lt_of_left hl)
    | exact Prod.Lex.left _ _ (ASTNode.sizeOf_lt_of_right hr)

/-- `generate_expr_ptrdref` (codegen.c, lines 205-212): evaluate the inner
    expression; a result type that is still a pointer passes the register
    through, otherwise a sized load. -/
def generate_expr_ptrdref (root : ASTNode) (s : CGState) :
    Except CompErr (Int × CGState) :=
  match hl : root.left with
  | none => .error .nullDeref
  | some l =>
    match generate_expr l s with
    | .error e => .error e
    | .ok (r, s1) =>
      match root.expr_type with
      | none => .error .nullDeref
      | some dt =>
        if dt.pointer_level = 0 then .ok (r, s1)
        else asm_load_mem r dt.size s1

termination_by (sizeOf root, 0)
decreasing_by
  all_goals
    first
    | exact Prod.Lex.right _ (by omega)
    | exact Prod.Lex.left _ _ (ASTNode.sizeOf_lt_of_left hl)
    | exact Prod.Lex.left _ _ (ASTNode.sizeOf_lt_of_right hr)

/-- `generate_expr_arr_index` (codegen.c, lines 214-222): evaluate the
    index, shift it by `log2(value/8)`, `lea` the base symbol and add. -/
def generate_expr_arr_index (root : ASTNode) (s : CGState) :
    Except CompErr (Int × CGState) :=
  match hr : root.right with
  | none => .error .nullDeref
  | some idx =>
    match generate_expr idx s with
    | .error e => .error e
    | .ok (ri, s1) =>
      match asm_sll ri (Nat.log2 (root.value.num_field / 8).toNat) s1 with
      | s2 =>
        match root.left with
        | none => .error .nullDeref
        | some lv =>
          match symtab_get_symbol s2.symtab lv.value.num_field with
          | .error e => .error e
          | .ok sym =>
            match asm_address_of sym.sym_name s2 with
            | .error e => .error e
            | .ok (rb, s3) => asm_arith_op rb ri s3

termination_by (sizeOf root, 0)
decreasing_by
  all_goals
    first
    | exact Prod.Lex.right _ (by omega)
    | exact Prod.Lex.left _ _ (ASTNode.sizeOf_lt_of_left hl)
    | exact Prod.Lex.left _ _ (ASTNode.sizeOf_lt_of_right hr)

end

/-- `generate_stmt_break` (codegen.c, lines 379-389).  The source resolves
    the target by `get_loop_context`, walking `parent` pointers to the
    nearest WHILE / DO_WHILE / FOR ancestor, whose `value` holds the end
    label the loop generator just stored; the walk model passes that label
    down as `loopEnd` (`none` when no loop ancestor exists), which is the
    same resolution because bodies are only ever generated under their
    enclosing loop node. -/
def generate_stmt_break (_root : ASTNode) (loopEnd : Option Nat)
    (s : CGState) : Except CompErr CGState :=
  match loopEnd with
  | none => .error .breakOutsideLoop
  | some _ => .ok s

/-- `generate_stmt_assign` (codegen.c, lines 391-418): evaluate the right
    side first, then store through the lvalue shape (VAR / PTRDREF /
    ARRAY_INDEX; anything else is the fatal diagnostic). -/
def generate_stmt_assign (root : ASTNode) (s : CGState) :
    Except CompErr CGState :=
  match root.right with
  | none => .error .nullDeref
  | some rhs =>
    match generate_expr rhs s with
    | .error e => .error e
    | .ok (ri, s1) =>
      match root.left with
      | none => .error .nullDeref
      | some lv =>
        match lv.ntype with
        | .var =>
          match symtab_get_symbol s1.symtab lv.value.num_field with
          | .error e => .error e
          | .ok sym => asm_set_global_var sym.sym_name ri s1
        | .ptrdref =>
          match generate_expr_ptrdref lv s1 with
          | .error e => .error e
          | .ok (ra, s2) =>
            match lv.expr_type with
            | none => .error .nullDeref
            | some dt => asm_store_mem ra ri dt.size s2
        | .array_index =>
          match generate_expr_arr_index lv s1 with
          | .error e => .error e
          | .ok (ra, s2) =>
            match lv.expr_type with
            | none => .error .nullDeref
            | some dt => asm_store_mem ra ri dt.size s2
        | _ => .error .unsupportedLvalue

/-- `generate_stmt_return` (codegen.c, lines 420-425): evaluate the node's
    left child *unconditionally* (a RETURN leaf from a bare `return;` has
    a NULL left child and crashes `generate_expr`), move the result into
    `rax` with the enclosing function's return size, set the
    `return_called_flag`.  `asm_generate_func_return` never frees the
    result register. -/
def generate_stmt_return (root : ASTNode) (s : CGState) :
    Except CompErr CGState :=
  match root.left with
  | none => .error .nullDeref
  | some e =>
    match generate_expr e s with
    | .error err => .error err
    | .ok (ri, s1) =>
      match symtab_get_symbol s1.symtab root.value.num_field with
      | .error err => .error err
      | .ok sym =>
        let s2 := asm_generate_func_return ri sym.data_type.size s1
        .ok { s2 with return_called_flag := true }

/-- `generate_stmt_fcall` (codegen.c, lines 427-438): like an expression
    call but with `need_return = false`. -/
def generate_stmt_fcall (root : ASTNode) (s : CGState) :
    Except CompErr CGState :=
  match root.left with
  | none =>
    match symtab_get_symbol s.symtab root.value.num_field with
    | .error e => .error e
    | .ok sym =>
      match asm_generate_func_call sym.sym_name asm_NoReg false s with
      | .error e => .error e
      | .ok (_, s1) => .ok s1
  | some l =>
    match generate_expr l s with
    | .error e => .error e
    | .ok (arg, s1) =>
      match symtab_get_symbol s1.symtab root.value.num_field with
      | .error e => .error e
      | .ok sym =>
        match asm_generate_func_call sym.sym_name arg false s1 with
        | .error e => .error e
        | .ok (_, s2) => .ok s2

/-- `generate_decl_var` (codegen.c, lines 272-305): reserve the `.bss`
    entry (size from the node's computed type, element count from the
    symbol's type), then handle an initializer: INT_LIT / STR_LIT
    initializers are recorded as `.data`, any other expression is
    evaluated and stored. -/
def generate_decl_var (root : ASTNode) (s : CGState) :
    Except CompErr CGState :=
  match symtab_get_symbol s.symtab root.value.num_field with
  | .error e => .error e
  | .ok sym =>
    match root.expr_type with
    | none => .error .nullDeref
    | some dt =>
      match asm_add_global_var sym.sym_name dt.size sym.data_type.array_size s with
      | .error e => .error e
      | .ok s1 =>
        match root.left with
        | none => .ok s1
        | some initv =>
          if initv.ntype = .int_lit then
            .ok (asm_set_global_var_initial_val sym.sym_name initv.value s1)
          else if initv.ntype = .str_lit then
            .ok (asm_set_global_var_initial_val sym.sym_name initv.value s1)
          else
            match generate_expr initv s1 with
            | .error e => .error e
            | .ok (rv, s2) =>
              match symtab_get_symbol s2.symtab root.value.num_field with
              | .error e => .error e
              | .ok sym2 => asm_set_global_var sym2.sym_name rv s2

theorem ASTNode.sizeOf_left_lt (r : ASTNode) : sizeOf r.left < sizeOf r := by
  cases r with
  | mk t l rg nx v e => simp [ASTNode.left] <;> omega

theorem ASTNode.sizeOf_right_lt (r : ASTNode) : sizeOf r.right < sizeOf r := by
  cases r with
  | mk t l rg nx v e => simp [ASTNode.right] <;> omega

theorem ASTNode.sizeOf_next_lt (r : ASTNode) : sizeOf r.next < sizeOf r := by
  cases r with
  | mk t l rg nx v e => simp [ASTNode.next] <;> omega

theorem ASTNode.sizeOf_next_lt_some (r : ASTNode) :
    sizeOf r.next < sizeOf (some r) := by
  have := ASTNode.sizeOf_next_lt r
  simp
  omega

mutual

/-- `generate_statements` (codegen.c, lines 224-231): walk the `next`
    chain. -/
def generate_statements (root : Option ASTNode) (loopEnd : Option Nat)
    (s : CGState) : Except CompErr CGState :=
  match root with
  | none => .ok s
  | some r =>
    match generate_statement r loopEnd s with
    | .error e => .error e
    | .ok s1 => generate_statements r.next loopEnd s1
termination_by (sizeOf root, 2)
decreasing_by
  · exact Prod.Lex.left _ _ (by simp <;> omega)
  · exact Prod.Lex.left _ _ (ASTNode.sizeOf_next_lt_some _)

/-- `generate_statement` (codegen.c, lines 233-270): dispatch on the node
    kind; an unexpected kind prints the `[CG]` diagnostic and calls
    `exit(0)`. -/
def generate_statement (root : ASTNode) (loopEnd : Option Nat)
    (s : CGState) : Except CompErr CGState :=
  match root.ntype with
  | .var_decl => generate_decl_var root s
  | .assign => generate_stmt_assign root s
  | .ifStmt => generate_stmt_if root loopEnd s
  | .whileStmt => generate_stmt_while root s
  | .doWhile => generate_stmt_do_while root s
  | .forStmt => generate_stmt_for root s
  | .brk => generate_stmt_break root loopEnd s
  | .empty => .ok s
  | .ret => generate_stmt_return root s
  | .func_call => generate_stmt_fcall root s
  | _ => .error .unexpectedNodeCG
termination_by (sizeOf root, 1)
decreasing_by
  all_goals exact Prod.Lex.right _ (by omega)

/-- `generate_stmt_if` (codegen.c, lines 307-324): two fresh labels,
    condition with `jmp_ne`-and-free, the GLUE node's left chain as the
    true block, its right chain (when present) as the else block. -/
def generate_stmt_if (root : ASTNode) (loopEnd : Option Nat) (s : CGState) :
    Except CompErr CGState :=
  match asm_generate_label s with
  | (falseLbl, s1) =>
    match asm_generate_label s1 with
    | (_endLbl, s2) =>
      match root.left with
      | none => .error .nullDeref
      | some cond =>
        match generate_expr cond s2 with
        | .error e => .error e
        | .ok (rc, s3) =>
          match asm_jmp_with_cond rc 1 falseLbl s3 with
          | .error e => .error e
          | .ok s4 =>
            match hg : root.right with
            | none => .error .nullDeref
            | some glue =>
              match generate_statements glue.left loopEnd s4 with
              | .error e => .error e
              | .ok s5 =>
                match hge : glue.right with
                | none => .ok s5
                | some elseB => generate_statements (some elseB) loopEnd s5
termination_by (sizeOf root, 0)
decreasing_by
  · exact Prod.Lex.left _ _ (by
      have h1 := ASTNode.sizeOf_lt_of_right hg
      have h2 := ASTNode.sizeOf_left_lt glue
      omega)
  · exact Prod.Lex.left _ _ (by
      have h1 := ASTNode.sizeOf_lt_of_right hg
      have h2 := ASTNode.sizeOf_right_lt glue
      rw [hge] at h2
      omega)

/-- `generate_stmt_while` (codegen.c, lines 326-342): start and end
    labels (the end label is stored in the node's `value` for `break`,
    here passed down as the body's `loopEnd`), condition with
    `jmp_ne`-and-free, body, back jump. -/
def generate_stmt_while (root : ASTNode) (s : CGState) :
    Except CompErr CGState :=
  match asm_generate_label s with
  | (_startLbl, s1) =>
    match asm_generate_label s1 with
    | (endLbl, s2) =>
      match root.left with
      | none => .error .nullDeref
      | some cond =>
        match generate_expr cond s2 with
        | .error e => .error e
        | .ok (rc, s3) =>
          match asm_jmp_with_cond rc 1 endLbl s3 with
          | .error e => .error e
          | .ok s4 => generate_statements root.right (some endLbl) s4
termination_by (sizeOf root, 0)
decreasing_by
  exact Prod.Lex.left _ _ (ASTNode.sizeOf_right_lt root)

/-- `generate_stmt_do_while` (codegen.c, lines 344-356): body first, then
    the condition with `jmp_eq`-and-free. -/
def generate_stmt_do_while (root : ASTNode) (s : CGState) :
    Except CompErr CGState :=
  match asm_generate_label s with
  | (startLbl, s1) =>
    match asm_generate_label s1 with
    | (_endLbl, s2) =>
      match generate_statements root.right (some _endLbl) s2 with
      | .error e => .error e
      | .ok s3 =>
        match root.left with
        | none => .error .nullDeref
        | some cond =>
          match generate_expr cond s3 with
          | .error e => .error e
          | .ok (rc, s4) => asm_jmp_with_cond rc 1 startLbl s4
termination_by (sizeOf root, 0)
decreasing_by
  exact Prod.Lex.left _ _ (ASTNode.sizeOf_right_lt root)

/-- `generate_stmt_for` (codegen.c, lines 358-377): the init / condition /
    update clauses hang off `root->left`'s `next` chain; init, labels,
    condition with `jmp_ne`-and-free, body, update, back jump. -/
def generate_stmt_for (root : ASTNode) (s : CGState) :
    Except CompErr CGState :=
  match hl : root.left with
  | none => .error .nullDeref
  | some init =>
    match hc : init.next with
    | none => .error .nullDeref
    | some cond =>
      match hu : cond.next with
      | none => .error .nullDeref
      | some update =>
        match asm_generate_label s with
        | (_startLbl, s1) =>
          match asm_generate_label s1 with
          | (endLbl, s2) =>
            match generate_statement init (some endLbl) s2 with
            | .error e => .error e
            | .ok s3 =>
              match generate_expr cond s3 with
              | .error e => .error e
              | .ok (rc, s4) =>
                match asm_jmp_with_cond rc 1 endLbl s4 with
                | .error e => .error e
                | .ok s5 =>
                  match generate_statements root.right (some endLbl) s5 with
                  | .error e => .error e
                  | .ok s6 => generate_statement update (some endLbl) s6
termination_by (sizeOf root, 0)
decreasing_by
  · exact Prod.Lex.left _ _ (ASTNode.sizeOf_lt_of_left hl)
  · exact Prod.Lex.left _ _ (ASTNode.sizeOf_right_lt root)
  · exact Prod.Lex.left _ _ (by
      have h1 := ASTNode.sizeOf_lt_of_left hl
      have h2 := ASTNode.sizeOf_lt_of_next hc
      have h3 := ASTNode.sizeOf_lt_of_next hu
      omega)

end

/-- `generate_decl_func` (codegen.c, lines 465-476): clear the
    `return_called_flag`, prologue, body (no enclosing loop), the default
    `mov al, 0` return when no `return` statement was generated, then the
    epilogue. -/
def generate_decl_func (root : ASTNode) (s : CGState) :
    Except CompErr CGState :=
  let s0 := { s with return_called_flag := false }
  match symtab_get_symbol s0.symtab root.value.num_field with
  | .error e => .error e
  | .ok _sym =>
    match generate_statements root.left none s0 with
    | .error e => .error e
    | .ok s1 =>
      if ¬ s1.return_called_flag then
        match asm_init_register 0 s1 with
        | .error e => .error e
        | .ok (ri, s2) => .ok (asm_generate_func_return ri 8 s2)
      else .ok s1

/-- `generate_decleration` (codegen.c, lines 449-463). -/
def generate_decleration (root : ASTNode) (s : CGState) :
    Except CompErr CGState :=
  match root.ntype with
  | .func_decl => generate_decl_func root s
  | .var_decl => generate_decl_var root s
  | _ => .error .unexpectedDeclCG

/-- `generate_declerations` (codegen.c, lines 440-447). -/
def generate_declerations (root : Option ASTNode) (s : CGState) :
    Except CompErr CGState :=
  match root with
  | none => .ok s
  | some r =>
    match generate_decleration r s with
    | .error e => .error e
    | .ok s1 => generate_declerations r.next s1
termination_by sizeOf root
decreasing_by
  exact ASTNode.sizeOf_next_lt_some _

/-- The register pool with all four slots free (the state claimed at
    statement boundaries and at epilogue emission). -/
def cg_pool_full (s : CGState) : Prop :=
  s.free_reg = [true, true, true, true]

instance (s : CGState) : Decidable (cg_pool_full s) := by
  unfold cg_pool_full
  infer_instance

/-- Modelled from the spec: the fatality condition the claim states for
    `check_assign(target, value)` — "fatal if pointer-levels differ
    (except assigning long ↔ pointer, which is tolerated); fatal if both
    are pointers with different base primitives; fatal on void; fatal if
    value is wider than target".  Kept separate from
    `datatype_check_assign_expr_type` (the source's check) so the two can
    be compared. -/
def check_assign_claimed_fatal (target value : Datatype) : Prop :=
  (target.pointer_level ≠ value.pointer_level ∧
    ¬((target.pointer_level > 0 ∧ value = DATATYPE_LONG) ∨
      (value.pointer_level > 0 ∧ target = DATATYPE_LONG))) ∨
  (target.pointer_level > 0 ∧ value.pointer_level > 0 ∧
    target.base_type ≠ value.base_type) ∨
  (target = DATATYPE_VOID ∨ value = DATATYPE_VOID) ∨
  (value.size > target.size)

instance (t v : Datatype) : Decidable (check_assign_claimed_fatal t v) := by
  unfold check_assign_claimed_fatal
  infer_instance

/-- Expression shapes the parser produces (expr.c): leaves carry no
    children, binary operators carry both, OFFSET_SCALE / PTRDREF carry a
    left operand only, a call carries at most an argument chain, an
    ARRAY_INDEX carries the base variable on the left and the index on the
    right.  `generate_expr` pre-evaluates whatever children are present,
    so on any other shape it would leak the registers of the ignored
    children. -/
inductive WFExpr : ASTNode → Prop where
  | int_lit : ∀ nx v et, WFExpr (.mk .int_lit none none nx v et)
  | str_lit : ∀ nx v et, WFExpr (.mk .str_lit none none nx v et)
  | var : ∀ nx v et, WFExpr (.mk .var none none nx v et)
  | addressof : ∀ inner nx v et, WFExpr (.mk .addressof (some inner) none nx v et)
  | binop : ∀ t l r nx v et,
      (t = .add ∨ t = .subtract ∨ t = .mult ∨ t = .div ∨
       t = .comp_eq ∨ t = .comp_ne ∨ t = .comp_gt ∨ t = .comp_ge ∨
       t = .comp_lt ∨ t = .comp_le) →
      WFExpr l → WFExpr r → WFExpr (.mk t (some l) (some r) nx v et)
  | offset_scale : ∀ l nx v et, WFExpr l →
      WFExpr (.mk .offset_scale (some l) none nx v et)
  | ptrdref : ∀ l nx v et, WFExpr l →
      WFExpr (.mk .ptrdref (some l) none nx v et)
  | func_call_noarg : ∀ nx v et, WFExpr (.mk .func_call none none nx v et)
  | func_call_arg : ∀ a nx v et, WFExpr a →
      WFExpr (.mk .func_call (some a) none nx v et)
  | array_index : ∀ b idx nx v et, WFExpr idx →
      WFExpr (.mk .array_index (some b) (some idx) nx v et)

/-!  Supporting lemmas. -/

theorem getD_true_lt_length (l : List Bool) (i : Nat)
    (h : l.getD i false = true) : i < l.length := by
  by_contra hge
  rw [List.getD_eq_default] at h
  · simp at h
  · omega

theorem getD_set_ne (l : List Bool) (i j : Nat) (b : Bool) (h : i ≠ j) :
    (l.set i b).getD j false = l.getD j false := by
  simp [List.getD, List.getElem?_set_ne h]

theorem getD_set_self (l : List Bool) (i : Nat) (b : Bool)
    (h : i < l.length) : (l.set i b).getD i false = b := by
  simp [List.getD, List.getElem?_set_self, h]

theorem set_true_of_getD_true (l : List Bool) (i : Nat)
    (h : l.getD i false = true) : l.set i true = l := by
  apply List.ext_getElem?
  intro j
  by_cases hij : i = j
  · subst hij
    have hlt : i < l.length := getD_true_lt_length l i h
    rw [List.getElem?_set_self hlt]
    rw [List.getD, List.get?_eq_getElem?] at h
    cases hx : l[i]? with
    | none => simp [hx] at h
    | some b => rw [hx] at h; simp at h; rw [h]
  · rw [List.getElem?_set_ne hij]

theorem allocate_register_spec {s : CGState} {r : Int} {s' : CGState}
    (h : allocate_register s = .ok (r, s')) :
    0 ≤ r ∧ r < 4 ∧ s.free_reg.getD r.toNat false = true ∧
    s' = { s with free_reg := s.free_reg.set r.toNat false } := by
  unfold allocate_register at h
  split_ifs at h with h0 h1 h2 h3 <;> cases h <;>
    refine ⟨by norm_num, by norm_num, by simp_all, rfl⟩

theorem free_register_spec {r : Int} {s s' : CGState}
    (h : free_register r s = .ok s') :
    0 ≤ r ∧ r < 4 ∧ s.free_reg.getD r.toNat false = false ∧
    s' = { s with free_reg := s.free_reg.set r.toNat true } := by
  unfold free_register at h
  split_ifs at h with h0 h1 h2 <;> cases h <;>
    exact ⟨not_lt.mp h1, lt_of_not_ge h0, by simpa using h2, rfl⟩

theorem asm_arith_op_spec {r1 r2 r : Int} {s s' : CGState}
    (h : asm_arith_op r1 r2 s = .ok (r, s')) :
    r = r1 ∧ free_register r2 s = .ok s' := by
  unfold asm_arith_op at h
  cases hf : free_register r2 s with
  | error e => rw [hf] at h; cases h
  | ok s2 => rw [hf] at h; cases h; exact ⟨rfl, rfl⟩

theorem asm_comp_spec {r1 r2 r : Int} {s s' : CGState}
    (h : asm_comp r1 r2 s = .ok (r, s')) :
    r = r1 ∧ free_register r2 s = .ok s' := by
  unfold asm_comp at h
  cases hf : free_register r2 s with
  | error e => rw [hf] at h; cases h
  | ok s2 => rw [hf] at h; cases h; exact ⟨rfl, rfl⟩

theorem pool_compose {A : List Bool} {rl rr : Int}
    (hrlA : A.getD rl.toNat false = true)
    (hrrB : (A.set rl.toNat false).getD rr.toNat false = true) :
    rl.toNat ≠ rr.toNat ∧ A.getD rr.toNat false = true ∧
    ((A.set rl.toNat false).set rr.toNat false).set rr.toNat true =
      A.set rl.toNat false := by
  have hlen : rl.toNat < A.length := getD_true_lt_length _ _ hrlA
  have hne : rl.toNat ≠ rr.toNat := by
    intro he
    rw [← he, getD_set_self _ _ _ hlen] at hrrB
    cases hrrB
  refine ⟨hne, ?_, ?_⟩
  · rw [getD_set_ne _ _ _ _ hne] at hrrB
    exact hrrB
  · rw [List.set_set]
    exact set_true_of_getD_true _ _ hrrB

theorem pool_swap {A : List Bool} {rl out : Int}
    (hrl : A.getD rl.toNat false = true)
    (hout : (A.set rl.toNat false).getD out.toNat false = true) :
    A.getD out.toNat false = true ∧
    ((A.set rl.toNat false).set out.toNat false).set rl.toNat true =
      A.set out.toNat false := by
  obtain ⟨hne, houtA, _⟩ := pool_compose hrl hout
  refine ⟨houtA, ?_⟩
  rw [List.set_comm _ _ _ hne]
  have : (A.set out.toNat false).getD rl.toNat false = true := by
    rw [getD_set_ne _ _ _ _ (Ne.symm hne)]
    exact hrl
  rw [List.set_set]
  exact set_true_of_getD_true _ _ this


theorem asm_load_mem_step {addr r : Int} {sz : Nat} {s1 s' : CGState}
    {A : List Bool}
    (hs1 : s1.free_reg = A.set addr.toNat false)
    (hA : A.getD addr.toNat false = true)
    (h : asm_load_mem addr sz s1 = .ok (r, s')) :
    0 ≤ r ∧ r < 4 ∧ A.getD r.toNat false = true ∧
    s'.free_reg = A.set r.toNat false ∧
    s'.bss_symbols = s1.bss_symbols ∧ s'.symtab = s1.symtab := by
  unfold asm_load_mem at h
  cases hal : allocate_register s1 with
  | error e => rw [hal] at h; cases h
  | ok q =>
    obtain ⟨out, s2⟩ := q
    rw [hal] at h
    dsimp only at h
    cases hfr : free_register addr s2 with
    | error e => rw [hfr] at h; cases h
    | ok s3 =>
      rw [hfr] at h
      dsimp only at h
      cases h
      obtain ⟨hb1, hb2, hb3, hb4⟩ := allocate_register_spec hal
      obtain ⟨hf1, hf2, hf3, hf4⟩ := free_register_spec hfr
      rw [hs1] at hb3
      obtain ⟨houtA, hswap⟩ := pool_swap hA hb3
      refine ⟨hb1, hb2, houtA, ?_, ?_, ?_⟩
      · rw [hf4]
        simp only
        rw [hb4]
        simp only
        rw [hs1, hswap]
      · rw [hf4, hb4]
      · rw [hf4, hb4]

theorem generate_expr_balanced :
    ∀ {e : ASTNode}, WFExpr e → ∀ {s : CGState} {r : Int} {s' : CGState},
      generate_expr e s = .ok (r, s') →
      0 ≤ r ∧ r < 4 ∧ s.free_reg.getD r.toNat false = true ∧
      s'.free_reg = s.free_reg.set r.toNat false ∧
      s'.bss_symbols = s.bss_symbols ∧ s'.symtab = s.symtab := by
  intro e wf
  induction wf with
  | int_lit nx v et =>
    intro s r s' h
    rw [generate_expr] at h
    simp only [ASTNode.ntype] at h
    rw [generate_expr_comparison] at h
    simp only [ASTNode.ntype] at h
    rw [if_neg (by decide)] at h
    rw [generate_expr_arithmetic] at h
    simp only [ASTNode.ntype, ASTNode.left, ASTNode.right] at h
    obtain ⟨h1, h2, h3, h4⟩ := allocate_register_spec h
    exact ⟨h1, h2, h3, by rw [h4], by rw [h4], by rw [h4]⟩
  | str_lit nx v et =>
    intro s r s' h
    rw [generate_expr] at h
    simp only [ASTNode.ntype] at h
    rw [generate_expr_comparison] at h
    simp only [ASTNode.ntype] at h
    rw [if_neg (by decide)] at h
    rw [generate_expr_arithmetic] at h
    simp only [ASTNode.ntype, ASTNode.left, ASTNode.right,
      asm_generate_string_lit] at h
    obtain ⟨h1, h2, h3, h4⟩ := allocate_register_spec h
    exact ⟨h1, h2, h3, by rw [h4], by rw [h4], by rw [h4]⟩
  | var nx v et =>
    intro s r s' h
    rw [generate_expr] at h
    simp only [ASTNode.ntype] at h
    rw [generate_expr_comparison] at h
    simp only [ASTNode.ntype] at h
    rw [if_neg (by decide)] at h
    rw [generate_expr_arithmetic] at h
    simp only [ASTNode.ntype, ASTNode.left, ASTNode.right, ASTNode.value] at h
    cases hsym : symtab_get_symbol s.symtab (ASTVal.num_field v) with
    | error e => rw [hsym] at h; cases h
    | ok sym =>
      rw [hsym] at h
      dsimp only at h
      unfold asm_get_global_var at h
      cases halloc : allocate_register s with
      | error e => rw [halloc] at h; cases h
      | ok p =>
        obtain ⟨r0, s1⟩ := p
        rw [halloc] at h
        dsimp only at h
        obtain ⟨h1, h2, h3, h4⟩ := allocate_register_spec halloc
        cases hbss : get_bss_symbol sym.sym_name s1 with
        | none => rw [hbss] at h; cases h
        | some b =>
          rw [hbss] at h
          dsimp only at h
          cases h
          exact ⟨h1, h2, h3, by rw [h4], by rw [h4], by rw [h4]⟩
  | addressof inner nx v et =>
    intro s r s' h
    rw [generate_expr] at h
    simp only [ASTNode.ntype] at h
    unfold generate_expr_addressof at h
    simp only [ASTNode.left] at h
    cases hsym : symtab_get_symbol s.symtab (ASTVal.num_field inner.value) with
    | error e => rw [hsym] at h; cases h
    | ok sym =>
      rw [hsym] at h
      dsimp only at h
      unfold asm_address_of at h
      obtain ⟨h1, h2, h3, h4⟩ := allocate_register_spec h
      exact ⟨h1, h2, h3, by rw [h4], by rw [h4], by rw [h4]⟩
  | binop t l rnode nx v et ht wfl wfr ihl ihr =>
    intro s r s' h
    rcases ht with rfl|rfl|rfl|rfl|rfl|rfl|rfl|rfl|rfl|rfl <;>
      [(rw [generate_expr] at h
        simp only [ASTNode.ntype] at h
        rw [generate_expr_comparison] at h
        simp only [ASTNode.ntype] at h
        rw [if_neg (by decide)] at h
        rw [generate_expr_arithmetic] at h
        simp only [ASTNode.ntype, ASTNode.left, ASTNode.right] at h
        rw [if_pos (by decide)] at h);
       (rw [generate_expr] at h
        simp only [ASTNode.ntype] at h
        rw [generate_expr_comparison] at h
        simp only [ASTNode.ntype] at h
        rw [if_neg (by decide)] at h
        rw [generate_expr_arithmetic] at h
        simp only [ASTNode.ntype, ASTNode.left, ASTNode.right] at h
        rw [if_pos (by decide)] at h);
       (rw [generate_expr] at h
        simp only [ASTNode.ntype] at h
        rw [generate_expr_comparison] at h
        simp only [ASTNode.ntype] at h
        rw [if_neg (by decide)] at h
        rw [generate_expr_arithmetic] at h
        simp only [ASTNode.ntype, ASTNode.left, ASTNode.right] at h
        rw [if_pos (by decide)] at h);
       (rw [generate_expr] at h
        simp only [ASTNode.ntype] at h
        rw [generate_expr_comparison] at h
        simp only [ASTNode.ntype] at h
        rw [if_neg (by decide)] at h
        rw [generate_expr_arithmetic] at h
        simp only [ASTNode.ntype, ASTNode.left, ASTNode.right] at h
        rw [if_pos (by decide)] at h);
       (rw [generate_expr] at h
        simp only [ASTNode.ntype] at h
        rw [generate_expr_comparison] at h
        simp only [ASTNode.ntype] at h
        rw [if_pos (by decide)] at h
        simp only [ASTNode.left, ASTNode.right] at h);
       (rw [generate_expr] at h
        simp only [ASTNode.ntype] at h
        rw [generate_expr_comparison] at h
        simp only [ASTNode.ntype] at h
        rw [if_pos (by decide)] at h
        simp only [ASTNode.left, ASTNode.right] at h);
       (rw [generate_expr] at h
        simp only [ASTNode.ntype] at h
        rw [generate_expr_comparison] at h
        simp only [ASTNode.ntype] at h
        rw [if_pos (by decide)] at h
        simp only [ASTNode.left, ASTNode.right] at h);
       (rw [generate_expr] at h
        simp only [ASTNode.ntype] at h
        rw [generate_expr_comparison] at h
        simp only [ASTNode.ntype] at h
        rw [if_pos (by decide)] at h
        simp only [ASTNode.left, ASTNode.right] at h);
       (rw [generate_expr] at h
        simp only [ASTNode.ntype] at h
        rw [generate_expr_comparison] at h
        simp only [ASTNode.ntype] at h
        rw [if_pos (by decide)] at h
        simp only [ASTNode.left, ASTNode.right] at h);
       (rw [generate_expr] at h
        simp only [ASTNode.ntype] at h
        rw [generate_expr_comparison] at h
        simp only [ASTNode.ntype] at h
        rw [if_pos (by decide)] at h
        simp only [ASTNode.left, ASTNode.right] at h)] <;>
    (cases hgl : generate_expr l s with
     | error e => rw [hgl] at h; cases h
     | ok p =>
       obtain ⟨rl, s1⟩ := p
       rw [hgl] at h
       dsimp only at h
       cases hgr : generate_expr rnode s1 with
       | error e => rw [hgr] at h; cases h
       | ok q =>
         obtain ⟨rr2, s2⟩ := q
         rw [hgr] at h
         dsimp only at h
         obtain ⟨hreq, hfree⟩ :=
           (by first
               | exact asm_arith_op_spec h
               | exact asm_comp_spec h :
             r = rl ∧ free_register rr2 s2 = .ok s')
         obtain ⟨ha1, ha2, ha3, ha4, ha5, ha6⟩ := ihl hgl
         obtain ⟨hb1, hb2, hb3, hb4, hb5, hb6⟩ := ihr hgr
         obtain ⟨hf1, hf2, hf3, hf4⟩ := free_register_spec hfree
         subst hreq
         rw [ha4] at hb3 hb4
         obtain ⟨hne, hrrA, hcollapse⟩ := pool_compose ha3 hb3
         refine ⟨ha1, ha2, ha3, ?_, ?_, ?_⟩
         · rw [hf4]
           simp only
           rw [hb4, hcollapse]
         · rw [hf4]
           simp only
           rw [hb5, ha5]
         · rw [hf4]
           simp only
           rw [hb6, ha6])
  | offset_scale l nx v et wfl ihl =>
    intro s r s' h
    rw [generate_expr] at h
    simp only [ASTNode.ntype] at h
    rw [generate_expr_comparison] at h
    simp only [ASTNode.ntype] at h
    rw [if_neg (by decide)] at h
    rw [generate_expr_arithmetic] at h
    simp only [ASTNode.ntype, ASTNode.left, ASTNode.right, ASTNode.value] at h
    rw [if_pos (by decide)] at h
    cases hgl : generate_expr l s with
    | error e => rw [hgl] at h; cases h
    | ok p =>
      obtain ⟨rl, s1⟩ := p
      rw [hgl] at h
      dsimp only at h
      unfold asm_init_register at h
      cases hal : allocate_register s1 with
      | error e => rw [hal] at h; cases h
      | ok q =>
        obtain ⟨off, s2⟩ := q
        rw [hal] at h
        dsimp only at h
        obtain ⟨hreq, hfree⟩ := asm_arith_op_spec h
        obtain ⟨ha1, ha2, ha3, ha4, ha5, ha6⟩ := ihl hgl
        obtain ⟨hb1, hb2, hb3, hb4⟩ := allocate_register_spec hal
        obtain ⟨hf1, hf2, hf3, hf4⟩ := free_register_spec hfree
        subst hreq
        refine ⟨ha1, ha2, ha3, ?_, ?_, ?_⟩
        · rw [hf4]
          simp only
          rw [hb4]
          simp only
          rw [List.set_set, set_true_of_getD_true _ _ hb3, ha4]
        · rw [hf4]
          simp only
          rw [hb4]
          simp only
          rw [ha5]
        · rw [hf4]
          simp only
          rw [hb4]
          simp only
          rw [ha6]
  | func_call_noarg nx v et =>
    intro s r s' h
    rw [generate_expr] at h
    simp only [ASTNode.ntype] at h
    rw [generate_expr_fcall] at h
    simp only [ASTNode.left, ASTNode.value] at h
    cases hsym : symtab_get_symbol s.symtab (ASTVal.num_field v) with
    | error e => rw [hsym] at h; cases h
    | ok sym =>
      rw [hsym] at h
      dsimp only at h
      unfold asm_generate_func_call at h
      cases hal : allocate_register s with
      | error e => rw [hal] at h; cases h
      | ok p =>
        obtain ⟨out, s1⟩ := p
        rw [hal] at h
        dsimp only at h
        rw [if_neg (by decide)] at h
        dsimp only at h
        rw [if_pos rfl] at h
        cases h
        obtain ⟨h1, h2, h3, h4⟩ := allocate_register_spec hal
        exact ⟨h1, h2, h3, by rw [h4], by rw [h4], by rw [h4]⟩
  | func_call_arg a nx v et wfa iha =>
    intro s r s' h
    rw [generate_expr] at h
    simp only [ASTNode.ntype] at h
    rw [generate_expr_fcall] at h
    simp only [ASTNode.left, ASTNode.value] at h
    cases hga : generate_expr a s with
    | error e => rw [hga] at h; cases h
    | ok p =>
      obtain ⟨ra, s1⟩ := p
      rw [hga] at h
      dsimp only at h
      cases hsym : symtab_get_symbol s1.symtab (ASTVal.num_field v) with
      | error e => rw [hsym] at h; cases h
      | ok sym =>
        rw [hsym] at h
        dsimp only at h
        obtain ⟨ha1, ha2, ha3, ha4, ha5, ha6⟩ := iha hga
        unfold asm_generate_func_call at h
        cases hal : allocate_register s1 with
        | error e => rw [hal] at h; cases h
        | ok q =>
          obtain ⟨out, s2⟩ := q
          rw [hal] at h
          dsimp only at h
          rw [if_pos (show ra ≠ asm_NoReg by
            intro hc
            rw [hc] at ha1
            norm_num [asm_NoReg] at ha1)] at h
          cases hfr : free_register ra s2 with
          | error e => rw [hfr] at h; cases h
          | ok s3 =>
            rw [hfr] at h
            dsimp only at h
            rw [if_pos rfl] at h
            cases h
            obtain ⟨hb1, hb2, hb3, hb4⟩ := allocate_register_spec hal
            obtain ⟨hf1, hf2, hf3, hf4⟩ := free_register_spec hfr
            rw [ha4] at hb3
            obtain ⟨houtA, hswap⟩ := pool_swap ha3 hb3
            refine ⟨hb1, hb2, ?_, ?_, ?_, ?_⟩
            · exact houtA
            · rw [hf4]
              simp only
              rw [hb4]
              simp only
              rw [ha4, hswap]
            · rw [hf4]
              simp only
              rw [hb4]
              simp only
              rw [ha5]
            · rw [hf4]
              simp only
              rw [hb4]
              simp only
              rw [ha6]
  | ptrdref l nx v et wfl ihl =>
    intro s r s' h
    rw [generate_expr] at h
    simp only [ASTNode.ntype] at h
    rw [generate_expr_comparison] at h
    simp only [ASTNode.ntype] at h
    rw [if_neg (by decide)] at h
    rw [generate_expr_arithmetic] at h
    simp only [ASTNode.ntype, ASTNode.left, ASTNode.right, ASTNode.expr_type] at h
    rw [if_neg (by decide)] at h
    dsimp only at h
    cases et with
    | none => cases h
    | some dt =>
      dsimp only at h
      by_cases hpl : dt.pointer_level > 0
      · rw [if_pos hpl] at h
        rw [generate_expr_ptrdref] at h
        simp only [ASTNode.left, ASTNode.expr_type] at h
        cases hgl : generate_expr l s with
        | error e => rw [hgl] at h; cases h
        | ok p =>
          obtain ⟨rl, s1⟩ := p
          rw [hgl] at h
          dsimp only at h
          rw [if_neg (by omega)] at h
          obtain ⟨ha1, ha2, ha3, ha4, ha5, ha6⟩ := ihl hgl
          obtain ⟨hl1, hl2, hl3, hl4, hl5, hl6⟩ := asm_load_mem_step ha4 ha3 h
          exact ⟨hl1, hl2, hl3, hl4, by rw [hl5, ha5], by rw [hl6, ha6]⟩
      · rw [if_neg hpl] at h
        rw [generate_expr_ptrdref] at h
        simp only [ASTNode.left, ASTNode.expr_type] at h
        cases hgl : generate_expr l s with
        | error e => rw [hgl] at h; cases h
        | ok p =>
          obtain ⟨rl, s1⟩ := p
          rw [hgl] at h
          dsimp only at h
          obtain ⟨ha1, ha2, ha3, ha4, ha5, ha6⟩ := ihl hgl
          by_cases hpl0 : dt.pointer_level = 0
          · rw [if_pos hpl0] at h
            dsimp only at h
            obtain ⟨hl1, hl2, hl3, hl4, hl5, hl6⟩ := asm_load_mem_step ha4 ha3 h
            exact ⟨hl1, hl2, hl3, hl4, by rw [hl5, ha5], by rw [hl6, ha6]⟩
          · rw [if_neg hpl0] at h
            cases hld : asm_load_mem rl dt.size s1 with
            | error e => rw [hld] at h; cases h
            | ok q =>
              obtain ⟨out1, s3⟩ := q
              rw [hld] at h
              dsimp only at h
              obtain ⟨hc1, hc2, hc3, hc4, hc5, hc6⟩ := asm_load_mem_step ha4 ha3 hld
              obtain ⟨hd1, hd2, hd3, hd4, hd5, hd6⟩ := asm_load_mem_step hc4 hc3 h
              exact ⟨hd1, hd2, hd3, hd4, by rw [hd5, hc5, ha5], by rw [hd6, hc6, ha6]⟩
  | array_index b idx nx v et wfidx ihidx =>
    intro s r s' h
    rw [generate_expr] at h
    simp only [ASTNode.ntype] at h
    rw [generate_expr_comparison] at h
    simp only [ASTNode.ntype] at h
    rw [if_neg (by decide)] at h
    rw [generate_expr_arithmetic] at h
    simp only [ASTNode.ntype, ASTNode.left, ASTNode.right, ASTNode.expr_type] at h
    rw [if_neg (by decide)] at h
    dsimp only at h
    rw [if_neg (by decide)] at h
    dsimp only at h
    rw [generate_expr_arr_index] at h
    simp only [ASTNode.ntype, ASTNode.left, ASTNode.right] at h
    cases hgi : generate_expr idx s with
    | error e => rw [hgi] at h; cases h
    | ok p =>
      obtain ⟨ri, s1⟩ := p
      rw [hgi] at h
      dsimp only at h
      unfold asm_sll at h
      cases hsym : symtab_get_symbol s1.symtab (ASTVal.num_field b.value) with
      | error e => rw [hsym] at h; cases h
      | ok sym =>
        rw [hsym] at h
        dsimp only at h
        unfold asm_address_of at h
        cases hal : allocate_register s1 with
        | error e => rw [hal] at h; cases h
        | ok q =>
          obtain ⟨rb, s2⟩ := q
          rw [hal] at h
          dsimp only at h
          cases hao : asm_arith_op rb ri s2 with
          | error e => rw [hao] at h; cases h
          | ok w =>
            obtain ⟨r0, s3⟩ := w
            rw [hao] at h
            dsimp only at h
            obtain ⟨hreq, hfree⟩ := asm_arith_op_spec hao
            subst hreq
            obtain ⟨ha1, ha2, ha3, ha4, ha5, ha6⟩ := ihidx hgi
            obtain ⟨hb1, hb2, hb3, hb4⟩ := allocate_register_spec hal
            obtain ⟨hf1, hf2, hf3, hf4⟩ := free_register_spec hfree
            rw [ha4] at hb3
            obtain ⟨houtA, hswap⟩ := pool_swap ha3 hb3
            have hs3free : s3.free_reg = s.free_reg.set r0.toNat false := by
              rw [hf4]
              simp only
              rw [hb4]
              simp only
              rw [ha4, hswap]
            have hs3bss : s3.bss_symbols = s.bss_symbols := by
              rw [hf4]
              simp only
              rw [hb4]
              simp only
              rw [ha5]
            have hs3sym : s3.symtab = s.symtab := by
              rw [hf4]
              simp only
              rw [hb4]
              simp only
              rw [ha6]
            cases et with
            | none => cases h
            | some dt =>
              dsimp only at h
              obtain ⟨hd1, hd2, hd3, hd4, hd5, hd6⟩ :=
                asm_load_mem_step hs3free houtA h
              exact ⟨hd1, hd2, hd3, hd4, by rw [hd5, hs3bss], by rw [hd6, hs3sym]⟩
theorem full_pool_getD (i : Nat) (h : i < 4) :
    [true, true, true, true].getD i false = true := by
  interval_cases i <;> decide

/-- C2 (amended): the claim asserts that all four scratch registers are
    free at every statement boundary and at the point the epilogue is
    emitted, and in particular that generating `return <expr>;` leaves no
    scratch register allocated.  In the code `asm_generate_func_return`
    (asm.c, lines 357-370) never frees the value register — the
    `free_register(r)` call is commented out — so generating
    `return <expr>;` from a full pool leaves exactly the expression's
    result register allocated, and the pool is not full afterwards (hence
    not full at the epilogue of a function whose body executed a
    `return`). -/
theorem C2_return_register_leak (e : ASTNode) (rt nx : Option ASTNode)
    (v : ASTVal) (et : Option Datatype) (s s' : CGState)
    (hwf : WFExpr e) (hfull : cg_pool_full s)
    (h : generate_stmt_return (.mk .ret (some e) rt nx v et) s = .ok s') :
    (∃ r : Int, 0 ≤ r ∧ r < 4 ∧
      s'.free_reg = s.free_reg.set r.toNat false) ∧
    ¬ cg_pool_full s' := by
  unfold generate_stmt_return at h
  simp only [ASTNode.left, ASTNode.value] at h
  cases hge : generate_expr e s with
  | error err => rw [hge] at h; cases h
  | ok p =>
    obtain ⟨ri, s1⟩ := p
    rw [hge] at h
    dsimp only at h
    cases hsym : symtab_get_symbol s1.symtab (ASTVal.num_field v) with
    | error err => rw [hsym] at h; cases h
    | ok sym =>
      rw [hsym] at h
      dsimp only at h
      cases h
      obtain ⟨h1, h2, h3, h4, h5, h6⟩ := generate_expr_balanced hwf hge
      refine ⟨⟨ri, h1, h2, ?_⟩, ?_⟩
      · simpa [asm_generate_func_return] using h4
      · intro hcon
        unfold cg_pool_full at hcon hfull
        have hgot : s1.free_reg.getD ri.toNat false = false := by
          rw [h4, hfull]
          exact getD_set_self _ _ _ (by simp; omega)
        unfold asm_generate_func_return at hcon
        simp only at hcon
        rw [hcon] at hgot
        rw [full_pool_getD ri.toNat (by omega)] at hgot
        cases hgot

/-- C7: an integer literal in `[0,256)` is typed `char`, one `>= 256` is
    typed `int`, and a negative literal payload is the fatal "signed
    numbers aren't supported" diagnostic (expr.c, lines 127-147). -/
theorem C7_intlit_typing (v : Int) :
    (0 ≤ v ∧ v < 256 →
      expr_val_intlit_core v =
        .ok ((ast_create_leaf_node .int_lit (.num v)).setExprType
              (some (datatype_get_primative_type .char)))) ∧
    (256 ≤ v →
      expr_val_intlit_core v =
        .ok ((ast_create_leaf_node .int_lit (.num v)).setExprType
              (some (datatype_get_primative_type .int)))) ∧
    (v < 0 → expr_val_intlit_core v = .error .signedIntLit) := by
  refine ⟨?_, ?_, ?_⟩
  · intro h
    unfold expr_val_intlit_core
    rw [if_pos h]
  · intro h
    unfold expr_val_intlit_core
    rw [if_neg (by omega), if_pos h]
  · intro h
    unfold expr_val_intlit_core
    rw [if_neg (by omega), if_neg (by omega)]

/-- Witness for C7 at the boundary literals 255, 256 and -1. -/
theorem C7_intlit_typing_witness :
    expr_val_intlit_core 255 =
      .ok ((ast_create_leaf_node .int_lit (.num 255)).setExprType
            (some (datatype_get_primative_type .char))) ∧
    expr_val_intlit_core 256 =
      .ok ((ast_create_leaf_node .int_lit (.num 256)).setExprType
            (some (datatype_get_primative_type .int))) ∧
    expr_val_intlit_core (-1) = .error .signedIntLit :=
  ⟨(C7_intlit_typing 255).1 (by norm_num),
   (C7_intlit_typing 256).2.1 (by norm_num),
   (C7_intlit_typing (-1)).2.2 (by norm_num)⟩

/-- C9: the parser accepts a bare `return;` in a void function and builds
    a RETURN leaf with no operand (stmt.c, lines 241-253), but
    `generate_stmt_return` (codegen.c, lines 420-425) unconditionally
    evaluates the node's left child, so code generation dereferences NULL
    on it: the claimed safety property fails on `void main() { return; }`. -/
theorem C9_bare_return_crash :
    stmt_return_node 0 ⟨"main", .func, DATATYPE_VOID⟩ .semicolon none =
      .ok ((ast_create_leaf_node .ret (.num 0)).setExprType
            (some DATATYPE_VOID)) ∧
    ((ast_create_leaf_node .ret (.num 0)).setExprType
      (some DATATYPE_VOID)).left = none ∧
    generate_stmt_return
      ((ast_create_leaf_node .ret (.num 0)).setExprType (some DATATYPE_VOID))
      (cg_init_state [⟨"main", .func, DATATYPE_VOID⟩]) = .error .nullDeref :=
  ⟨rfl, rfl, rfl⟩

/-- C8: the two cited fatal sites print their `[ERROR]` diagnostic and
    then call `exit(0)`, not a non-zero status: `generate_statement`'s
    unexpected-node default (codegen.c, line 268) and
    `asm_add_global_var`'s `.bss` redefinition branch (asm.c, line 231).
    The claim that they terminate with non-zero status fails there. -/
theorem C8_fatal_exit_zero :
    (generate_statement (.mk .glue none none none (.num 0) none) none
        (cg_init_state []) = .error .unexpectedNodeCG ∧
      CompErr.unexpectedNodeCG.exitCode = 0) ∧
    (asm_add_global_var "x" 32 0
        { cg_init_state [] with bss_symbols := [⟨"x", 32, 1⟩] } =
        .error .bssRedefinition ∧
      CompErr.bssRedefinition.exitCode = 0) := by
  refine ⟨⟨?_, rfl⟩, ⟨?_, by decide⟩⟩
  · rw [generate_statement]
    rfl
  · decide

/-- C10: `scanner_putback` stores at `buffer_tail - 1` while
    `buffer_tail` advances modulo 255, so once `buffer_tail` has wrapped
    to 0 (after 254 putbacks) the 255th putback stores at index -1,
    outside the 255-entry buffer: a sequence of 255 cached scans reaches
    it. -/
theorem C10_putback_store_oob :
    (-1 : Int) ∈ scan_trace_store_indices scanner_init_buf
      (List.replicate 255 ScanOp.cache) ∧
    ¬ (0 ≤ (-1 : Int) ∧ (-1 : Int) ≤ 254) := by
  constructor
  · decide
  · decide

/-- C5 fails as stated: `check_assign(void, void)` returns without error,
    while the claim says the check is fatal on void — the code's void test
    fires only when exactly one side is the void singleton. -/
theorem C5_void_void_counterexample :
    check_assign_claimed_fatal DATATYPE_VOID DATATYPE_VOID ∧
    datatype_check_assign_expr_type DATATYPE_VOID DATATYPE_VOID = .ok () := by
  constructor
  · decide
  · decide

/-- C5 (amended): `datatype_check_assign_expr_type target value` succeeds
    exactly when (a) the pointer levels pass — either one side has
    pointer-level > 0 while the other is the `long` primitive singleton
    itself (the tolerated long/pointer mix), or the levels are equal and
    it is not the case that both are pointers with different base types —
    and (b) void passes — `target` is void exactly when `value` is void
    (void-to-void is accepted) — and (c) `value` is not wider than
    `target`.  The check is applied to assignments, initializers,
    arguments and return expressions (expr.c:457, decl.c:164,
    expr.c:428, stmt.c:258). -/
theorem C5_check_assign_characterization (t v : Datatype) :
    datatype_check_assign_expr_type t v = .ok () ↔
      (((t.pointer_level > 0 ∧ v = DATATYPE_LONG) ∨
        (v.pointer_level > 0 ∧ t = DATATYPE_LONG)) ∨
       (t.pointer_level = v.pointer_level ∧
        ¬(t.pointer_level > 0 ∧ v.pointer_level > 0 ∧
          t.base_type ≠ v.base_type))) ∧
      ((t = DATATYPE_VOID) ↔ (v = DATATYPE_VOID)) ∧
      v.size ≤ t.size := by
  have hv1 : t.pointer_level > 0 → t ≠ DATATYPE_VOID := by
    intro h he
    rw [he] at h
    norm_num [DATATYPE_VOID, Datatype.pointer_level] at h
  have hv2 : v.pointer_level > 0 → v ≠ DATATYPE_VOID := by
    intro h he
    rw [he] at h
    norm_num [DATATYPE_VOID, Datatype.pointer_level] at h
  have hlv : DATATYPE_LONG ≠ DATATYPE_VOID := by decide
  unfold datatype_check_assign_expr_type check_pointer_levels
  by_cases h1 : (t.pointer_level > 0 ∧ v = datatype_get_primative_type .long) ∨
      (v.pointer_level > 0 ∧ t = datatype_get_primative_type .long)
  · rw [if_pos h1]
    dsimp only
    have hvoid : (t = DATATYPE_VOID) ↔ (v = DATATYPE_VOID) := by
      rcases h1 with ⟨hp, hl⟩ | ⟨hp, hl⟩
      · constructor
        · intro he
          exact absurd he (hv1 hp)
        · intro he
          rw [he] at hl
          exact absurd hl.symm hlv
      · constructor
        · intro he
          rw [he] at hl
          exact absurd hl.symm hlv
        · intro he
          exact absurd he (hv2 hp)
    by_cases h2 : (t = DATATYPE_VOID ∧ v ≠ DATATYPE_VOID) ∨
        (v = DATATYPE_VOID ∧ t ≠ DATATYPE_VOID)
    · exact absurd h2 (by tauto)
    · rw [if_neg h2]
      by_cases h3 : t.size < v.size
      · rw [if_pos h3]
        simp only [reduceCtorEq, false_iff]
        intro ⟨_, _, hsz⟩
        omega
      · rw [if_neg h3]
        simp only [true_iff]
        exact ⟨Or.inl h1, hvoid, by omega⟩
  · rw [if_neg h1]
    by_cases h4 : t.pointer_level ≠ v.pointer_level
    · rw [if_pos h4]
      dsimp only
      simp only [reduceCtorEq, false_iff]
      intro ⟨hpl, _, _⟩
      rcases hpl with he | ⟨heq, _⟩
      · exact h1 he
      · exact h4 heq
    · rw [if_neg h4]
      push_neg at h4
      by_cases h5 : t.pointer_level > 0 ∧ v.pointer_level > 0 ∧
          t.base_type ≠ v.base_type
      · rw [if_pos h5]
        dsimp only
        simp only [reduceCtorEq, false_iff]
        intro ⟨hpl, _, _⟩
        rcases hpl with he | ⟨_, hnot⟩
        · exact h1 he
        · exact hnot h5
      · rw [if_neg h5]
        dsimp only
        by_cases h2 : (t = DATATYPE_VOID ∧ v ≠ DATATYPE_VOID) ∨
            (v = DATATYPE_VOID ∧ t ≠ DATATYPE_VOID)
        · rw [if_pos h2]
          simp only [reduceCtorEq, false_iff]
          intro ⟨_, hvoid, _⟩
          tauto
        · rw [if_neg h2]
          by_cases h3 : t.size < v.size
          · rw [if_pos h3]
            simp only [reduceCtorEq, false_iff]
            intro ⟨_, _, hsz⟩
            omega
          · rw [if_neg h3]
            simp only [true_iff]
            refine ⟨Or.inr ⟨h4, h5⟩, ?_, by omega⟩
            constructor
            · intro he
              by_contra hne
              exact h2 (Or.inl ⟨he, hne⟩)
            · intro he
              by_contra hne
              exact h2 (Or.inr ⟨he, hne⟩)

theorem expr_entry_scan_find (toks : List TokenType) :
    ∀ n i, toks.length - i ≤ n →
      expr_entry_scan toks i =
        ((toks.drop i).find?
          (fun tk => decide (tk ∈ expr_entry_terminators))).getD .eof := by
  intro n
  induction n with
  | zero =>
    intro i hi
    have hge : toks.length ≤ i := by omega
    rw [expr_entry_scan]
    rw [List.drop_eq_nil_of_le hge]
    have hpk : scanner_peek_at_model toks i = .eof := by
      simp [scanner_peek_at_model, List.getElem?_eq_none hge]
    rw [dif_pos (by rw [hpk]; decide)]
    rw [hpk]
    rfl
  | succ n ihn =>
    intro i hi
    rw [expr_entry_scan]
    by_cases hlt : i < toks.length
    · have hdrop : toks.drop i = toks[i] :: toks.drop (i + 1) :=
        List.drop_eq_getElem_cons hlt
      have hpk : scanner_peek_at_model toks i = toks[i] := by
        simp [scanner_peek_at_model, List.getD, List.getElem?_eq_getElem hlt]
      by_cases hterm : scanner_peek_at_model toks i ∈ expr_entry_terminators
      · rw [dif_pos hterm]
        rw [hdrop, List.find?_cons_of_pos _ (by rw [← hpk]; exact decide_eq_true hterm)]
        rw [hpk]
        rfl
      · rw [dif_neg hterm]
        rw [ihn (i + 1) (by omega)]
        rw [hdrop, List.find?_cons_of_neg _ (by simp only [decide_eq_true_eq]; rw [← hpk]; exact hterm)]
    · have hge : toks.length ≤ i := by omega
      have hpk : scanner_peek_at_model toks i = .eof := by
        simp [scanner_peek_at_model, List.getElem?_eq_none hge]
      rw [dif_pos (by rw [hpk]; decide)]
      rw [List.drop_eq_nil_of_le hge, hpk]
      rfl

/-- C4 fails as stated: a comma does not stop the lookahead.  On the
    upcoming tokens `a , b = ...` the claimed scan stops at the comma
    (which is not `=`, so the claim predicts a comparison parse), but
    `expr_expression` scans past the comma, finds the `=` and parses an
    assignment. -/
theorem C4_comma_counterexample :
    spec_expr_entry_scan [.id, .comma, .id, .assign] = .comma ∧
    TokenType.comma ≠ .assign ∧
    expr_expression_chooses_assignment [.id, .comma, .id, .assign] = true := by
  refine ⟨by decide, by decide, ?_⟩
  unfold expr_expression_chooses_assignment
  rw [expr_entry_scan_find _ (([TokenType.id, .comma, .id, .assign]).length) 0
    (by omega)]
  decide

/-- C4 (amended): the lookahead in `expr_expression` stops at the first
    upcoming token that is `=`, `;`, the empty sentinel, `)` or EOF —
    the comma is *not* a terminator (the code checks TOK_EMPTY where the
    spec lists `,`) — reading past the end of the stream as EOF, and the
    parser chooses the assignment production exactly when that stopping
    token is `=`. -/
theorem C4_expr_entry_amended (toks : List TokenType) :
    expr_entry_scan toks 0 =
      (toks.find? (fun tk => decide (tk ∈ expr_entry_terminators))).getD .eof ∧
    (expr_expression_chooses_assignment toks = true ↔
      (toks.find? (fun tk => decide (tk ∈ expr_entry_terminators))).getD .eof =
        .assign) := by
  have h := expr_entry_scan_find toks toks.length 0 (by omega)
  rw [List.drop_zero] at h
  refine ⟨h, ?_⟩
  unfold expr_expression_chooses_assignment
  rw [h]
  simp

/-- C3 fails as stated: `in_loop` is a single boolean, not a nesting
    counter.  `stmt_while` sets it to `false` when the loop closes, so in
    `while (..) { while (..) { ; } break; }` the `break` sits inside the
    outer loop body but is parsed with the flag already cleared by the
    inner loop, and the parser raises the fatal break-outside-loop error;
    the cleared flag also persists out of an `if` whose branch contains a
    loop, so `while (..) { if (..) { while (..) { ; } } break; }` is
    rejected the same way. -/
theorem C3_break_after_inner_loop_counterexample :
    stmt_parse_flag false (.whileLoop [.whileLoop [.plain], .brk]) =
      .error .breakOutsideLoop ∧
    stmt_parse_flag false
        (.whileLoop [.ifStmt [.whileLoop [.plain]] [], .brk]) =
      .error .breakOutsideLoop := by
  constructor <;> simp [stmt_parse_flag, stmts_parse_flag]

/-- C3 (amended): the parser tracks a single boolean `in_loop` flag, not a
    depth counter.  `break` is accepted exactly when the flag is true;
    every loop statement (while / do-while / for) leaves the flag `false`
    on exit regardless of its value on entry, so a `break` in an outer
    loop placed after a closed inner loop is (wrongly, per the spec's
    intent) rejected; sequencing threads the flag left to right, and an
    `if` statement never restores it: its else branch is parsed under the
    flag its then branch left, and that flag persists past the `if`. -/
theorem C3_in_loop_flag_amended :
    (∀ f : Bool, stmt_parse_flag f .brk =
        if f then .ok f else .error .breakOutsideLoop) ∧
    (∀ (f r : Bool) (body : List PStmt),
        (stmt_parse_flag f (.whileLoop body) = .ok r ∨
         stmt_parse_flag f (.doWhileLoop body) = .ok r ∨
         stmt_parse_flag f (.forLoop body) = .ok r) → r = false) ∧
    (∀ (pre rest : List PStmt) (f f' : Bool),
        stmts_parse_flag f pre = .ok f' →
        stmts_parse_flag f (pre ++ rest) = stmts_parse_flag f' rest) ∧
    (∀ (f f1 : Bool) (thenBody elseBody : List PStmt),
        stmts_parse_flag f thenBody = .ok f1 →
        stmt_parse_flag f (.ifStmt thenBody elseBody) =
          stmts_parse_flag f1 elseBody) := by
  refine ⟨fun f => by rw [stmt_parse_flag], ?_, ?_,
    fun f f1 tb eb h => by rw [stmt_parse_flag, h]⟩
  · intro f r body h
    rcases h with h | h | h <;>
      rw [stmt_parse_flag] at h <;>
      cases hb : stmts_parse_flag true body <;>
      rw [hb] at h <;> dsimp only at h
    all_goals first
        | (simp only [reduceCtorEq] at h)
        | (injection h with h2; exact h2.symm)
  · intro pre
    induction pre with
    | nil =>
      intro rest f f' h
      rw [stmts_parse_flag] at h
      cases h
      simp
    | cons s pre ih =>
      intro rest f f' h
      rw [stmts_parse_flag] at h
      rw [List.cons_append, stmts_parse_flag]
      cases hs : stmt_parse_flag f s <;> rw [hs] at h <;> dsimp only at h
      · exact absurd h (by simp)
      · exact ih rest _ f' h

theorem C3_in_loop_flag_amended_witness :
    stmts_parse_flag false [PStmt.whileLoop [.brk]] = .ok false ∧
    stmts_parse_flag false ([PStmt.whileLoop [.brk]] ++ [.brk]) =
      stmts_parse_flag false [.brk] ∧
    stmts_parse_flag true [PStmt.whileLoop [.brk]] = .ok false ∧
    stmt_parse_flag true (.ifStmt [PStmt.whileLoop [.brk]] []) =
      stmts_parse_flag false [] := by
  have h : stmts_parse_flag false [PStmt.whileLoop [.brk]] = .ok false := by
    simp [stmts_parse_flag, stmt_parse_flag]
  have h2 : stmts_parse_flag true [PStmt.whileLoop [.brk]] = .ok false := by
    simp [stmts_parse_flag, stmt_parse_flag]
  exact ⟨h, C3_in_loop_flag_amended.2.2.1 [.whileLoop [.brk]] [.brk] false false h,
    h2, C3_in_loop_flag_amended.2.2.2 true false [.whileLoop [.brk]] [] h2⟩

/-- C6 holds: in an additive combination where exactly one operand's type
    has pointer-level > 0 (neither being void), the non-pointer operand is
    wrapped in an OFFSET_SCALE node whose value is 8 when the pointer
    operand's level exceeds 1 and otherwise the base primitive's width
    divided by 8, the wrapper keeps the non-pointer operand's computed
    type, and the ADD/SUB node is then built over the wrapped pair and
    typed by `datatype_expr_type` (the wider side). -/
theorem C6_pointer_arith_offset_scale
    (t : ASTNodeType) (left right : ASTNode) (lt rt b : Datatype)
    (hl : left.expr_type = some lt) (hr : right.expr_type = some rt)
    (hvl : lt ≠ DATATYPE_VOID) (hvr : rt ≠ DATATYPE_VOID) :
    (lt.pointer_level > 0 → rt.pointer_level = 0 → lt.base_type = some b →
      expr_additive_combine t left right = .ok
        ((ast_create_node t (some left)
            (some ((ast_create_node .offset_scale (some right) none
                (.num (if lt.pointer_level > 1 then 8
                       else (b.size / 8 : Nat)))).setExprType (some rt)))
            (.num 0)).setExprType
          (some (if lt.size > rt.size then lt else rt)))) ∧
    (rt.pointer_level > 0 → lt.pointer_level = 0 → rt.base_type = some b →
      expr_additive_combine t left right = .ok
        ((ast_create_node t
            (some ((ast_create_node .offset_scale (some left) none
                (.num (if rt.pointer_level > 1 then 8
                       else (b.size / 8 : Nat)))).setExprType (some lt)))
            (some right) (.num 0)).setExprType
          (some (if lt.size > rt.size then lt else rt)))) := by
  have hvoid : ¬((lt = DATATYPE_VOID ∧ rt ≠ DATATYPE_VOID) ∨
      (rt = DATATYPE_VOID ∧ lt ≠ DATATYPE_VOID)) := by
    rintro (⟨h1, _⟩ | ⟨h1, _⟩)
    exacts [hvl h1, hvr h1]
  constructor
  · intro hp hz hb
    have hne : lt ≠ rt := by
      intro he
      rw [he, hz] at hp
      exact absurd hp (lt_irrefl 0)
    unfold expr_additive_combine
    rw [hl, hr]
    dsimp only
    rw [if_pos (Or.inl hp)]
    rw [show (if lt.pointer_level > 0 then lt else rt) = lt from if_pos hp, hb]
    unfold datatype_expr_type
    rw [if_neg hne, if_neg hvoid]
    split_ifs <;> first | rfl | (exfalso; omega)
  · intro hp hz hb
    have hne : lt ≠ rt := by
      intro he
      rw [← he, hz] at hp
      exact absurd hp (lt_irrefl 0)
    unfold expr_additive_combine
    rw [hl, hr]
    dsimp only
    have hnl : ¬(lt.pointer_level > 0) := by rw [hz]; exact lt_irrefl 0
    rw [if_pos (Or.inr hp)]
    rw [show (if lt.pointer_level > 0 then lt else rt) = rt from if_neg hnl, hb]
    unfold datatype_expr_type
    rw [if_neg hne, if_neg hvoid]
    split_ifs <;> first | rfl | (exfalso; omega)

theorem C6_pointer_arith_offset_scale_witness :
    expr_additive_combine .add
      (.mk .var none none none (.str "p")
        (some (.derived "int" 64 1 0 (some DATATYPE_INT))))
      (.mk .int_lit none none none (.num 3) (some DATATYPE_INT)) = .ok
      ((ast_create_node .add
          (some (.mk .var none none none (.str "p")
            (some (.derived "int" 64 1 0 (some DATATYPE_INT)))))
          (some ((ast_create_node .offset_scale
              (some (.mk .int_lit none none none (.num 3) (some DATATYPE_INT)))
              none (.num 4)).setExprType (some DATATYPE_INT)))
          (.num 0)).setExprType
        (some (.derived "int" 64 1 0 (some DATATYPE_INT)))) :=
  (C6_pointer_arith_offset_scale .add
      (.mk .var none none none (.str "p")
        (some (.derived "int" 64 1 0 (some DATATYPE_INT))))
      (.mk .int_lit none none none (.num 3) (some DATATYPE_INT))
      (.derived "int" 64 1 0 (some DATATYPE_INT)) DATATYPE_INT DATATYPE_INT
      rfl rfl (by decide) (by decide)).1 (by decide) (by decide) rfl

/-- C1 fails as stated: the scale literal is built from the *array
    variable's own type's* size (`dt->size / 8`), and an array of `char`
    has the 64-bit pointer type `char*`, so indexing a `char` array scales
    by 8, not by the element size 1. -/
theorem C1_array_scale_counterexample :
    expr_val_var_index_core
        (.mk .var none none none (.str "a")
          (some (.derived "char" 64 1 4 (some DATATYPE_CHAR))))
        (.mk .int_lit none none none (.num 0) (some DATATYPE_CHAR)) = .ok
      (.mk .ptrdref
        (some (.mk .add
          (some (.mk .addressof
            (some (.mk .var none none none (.str "a")
              (some (.derived "char" 64 1 4 (some DATATYPE_CHAR)))))
            none none (.num 0)
            (some (.derived "char" 64 1 4 (some DATATYPE_CHAR)))))
          (some (.mk .mult
            (some (.mk .int_lit none none none (.num 0) (some DATATYPE_CHAR)))
            (some (.mk .int_lit none none none (.num 8) none))
            none (.num 0) none))
          none (.num 0)
          (some (.derived "char" 64 1 4 (some DATATYPE_CHAR)))))
        none none (.num 0) (some (.derived "char" 8 0 0 none))) ∧
    ((Datatype.derived "char" 64 1 4 (some DATATYPE_CHAR)).size / 8 : Nat) ≠
      (DATATYPE_CHAR.size / 8 : Nat) :=
  ⟨rfl, by decide⟩

/-- C1 (amended): parsing `<id>[<expr>]` builds
    `PTRDREF(ADD(ADDRESSOF(id), MUL(expr, INT_LIT(s))))` where the scale
    `s` is `dt.size / 8` computed from the array variable's *own* type
    `dt` — always 8 for the 64-bit pointer types the declaration code
    gives arrays — not the element size; the ADD node is typed with the
    combined type (here `dt`, the wider side) and the PTRDREF node with
    its single dereference. -/
theorem C1_array_index_amended
    (var index : ASTNode) (dt it b : Datatype)
    (hv : var.expr_type = some dt) (hi : index.expr_type = some it)
    (hsz : it.size < dt.size) (hpl : dt.pointer_level = 1)
    (hb : dt.base_type = some b) (hvi : it ≠ DATATYPE_VOID) :
    expr_val_var_index_core var index = .ok
      ((ast_create_node .ptrdref
          (some ((ast_create_node .add
              (some ((ast_create_node .addressof (some var) none
                (.num 0)).setExprType (some dt)))
              (some (ast_create_node .mult (some index)
                (some (ast_create_leaf_node .int_lit (.num (dt.size / 8))))
                (.num 0)))
              (.num 0)).setExprType (some dt)))
          none (.num 0)).setExprType
        (some (.derived dt.name b.size 0 0 none))) := by
  have hvd : dt ≠ DATATYPE_VOID := by
    intro he
    rw [he] at hpl
    exact absurd hpl (by decide)
  have hne : dt ≠ it := by
    intro he
    rw [he] at hsz
    exact absurd hsz (lt_irrefl _)
  have hvoid : ¬((dt = DATATYPE_VOID ∧ it ≠ DATATYPE_VOID) ∨
      (it = DATATYPE_VOID ∧ dt ≠ DATATYPE_VOID)) := by
    rintro (⟨h1, _⟩ | ⟨h1, _⟩)
    exacts [hvd h1, hvi h1]
  unfold expr_val_var_index_core
  rw [hv]
  dsimp only
  rw [hi]
  dsimp only
  unfold datatype_expr_type
  rw [if_neg hne, if_neg hvoid, if_pos hsz]
  dsimp only
  unfold datatype_deref_pointer
  rw [hpl]
  rw [if_neg (by decide : ¬((1 : Int) = 0))]
  rw [if_neg (by decide : ¬((1 : Int) - 1 < 0))]
  rw [if_pos (by decide : (1 : Int) - 1 = 0)]
  rw [hb]

theorem C1_array_index_amended_witness :
    expr_val_var_index_core
        (.mk .var none none none (.str "v")
          (some (.derived "int" 64 1 3 (some DATATYPE_INT))))
        (.mk .int_lit none none none (.num 2) (some DATATYPE_CHAR)) = .ok
      ((ast_create_node .ptrdref
          (some ((ast_create_node .add
              (some ((ast_create_node .addressof
                (some (.mk .var none none none (.str "v")
                  (some (.derived "int" 64 1 3 (some DATATYPE_INT)))))
                none (.num 0)).setExprType
                (some (.derived "int" 64 1 3 (some DATATYPE_INT)))))
              (some (ast_create_node .mult
                (some (.mk .int_lit none none none (.num 2)
                  (some DATATYPE_CHAR)))
                (some (ast_create_leaf_node .int_lit (.num 8)))
                (.num 0)))
              (.num 0)).setExprType
            (some (.derived "int" 64 1 3 (some DATATYPE_INT)))))
          none (.num 0)).setExprType
        (some (.derived "int" 32 0 0 none))) :=
  C1_array_index_amended
    (.mk .var none none none (.str "v")
      (some (.derived "int" 64 1 3 (some DATATYPE_INT))))
    (.mk .int_lit none none none (.num 2) (some DATATYPE_CHAR))
    (.derived "int" 64 1 3 (some DATATYPE_INT)) DATATYPE_CHAR DATATYPE_INT
    rfl rfl (by decide) (by decide) rfl (by decide)

/-- C2 fails on the simplest return: generating `return 1;` from the full
    initial pool leaves register r12 allocated (the commented-out
    `free_register` in `asm_generate_func_return`), so the pool is not
    full at the epilogue or at the following statement boundary. -/
theorem C2_return_full_pool_counterexample :
    generate_stmt_return
        (.mk .ret (some (.mk .int_lit none none none (.num 1)
          (some DATATYPE_CHAR))) none none (.num 0) (some DATATYPE_INT))
        (cg_init_state [⟨"main", .func, DATATYPE_INT⟩]) =
      .ok ⟨[false, true, true, true], [], 0, 0, true,
        [⟨"main", .func, DATATYPE_INT⟩]⟩ ∧
    ¬ cg_pool_full ⟨[false, true, true, true], [], 0, 0, true,
        [⟨"main", .func, DATATYPE_INT⟩]⟩ := by
  constructor
  · have hget : generate_expr
        (.mk .int_lit none none none (.num 1) (some DATATYPE_CHAR))
        (cg_init_state [⟨"main", .func, DATATYPE_INT⟩]) =
        .ok (0, ⟨[false, true, true, true], [], 0, 0, false,
          [⟨"main", .func, DATATYPE_INT⟩]⟩) := by
      rw [generate_expr]
      dsimp only [ASTNode.ntype]
      rw [generate_expr_comparison]
      rw [if_neg (by decide)]
      rw [generate_expr_arithmetic]
      rfl
    unfold generate_stmt_return
    dsimp only [ASTNode.left]
    rw [hget]
    rfl
  · decide

theorem C2_return_register_leak_witness :
    (∃ r : Int, 0 ≤ r ∧ r < 4 ∧
      (⟨[false, true, true, true], [], 0, 0, true,
        [⟨"f", .func, DATATYPE_CHAR⟩]⟩ : CGState).free_reg =
        (cg_init_state [⟨"f", .func, DATATYPE_CHAR⟩]).free_reg.set
          (Int.toNat r) false) ∧
    ¬ cg_pool_full ⟨[false, true, true, true], [], 0, 0, true,
        [⟨"f", .func, DATATYPE_CHAR⟩]⟩ := by
  have hget : generate_expr
      (.mk .int_lit none none none (.num 2) (some DATATYPE_CHAR))
      (cg_init_state [⟨"f", .func, DATATYPE_CHAR⟩]) =
      .ok (0, ⟨[false, true, true, true], [], 0, 0, false,
        [⟨"f", .func, DATATYPE_CHAR⟩]⟩) := by
    rw [generate_expr]
    dsimp only [ASTNode.ntype]
    rw [generate_expr_comparison]
    rw [if_neg (by decide)]
    rw [generate_expr_arithmetic]
    rfl
  have h : generate_stmt_return
      (.mk .ret (some (.mk .int_lit none none none (.num 2)
        (some DATATYPE_CHAR))) none none (.num 0) (some DATATYPE_CHAR))
      (cg_init_state [⟨"f", .func, DATATYPE_CHAR⟩]) =
      .ok ⟨[false, true, true, true], [], 0, 0, true,
        [⟨"f", .func, DATATYPE_CHAR⟩]⟩ := by
    unfold generate_stmt_return
    dsimp only [ASTNode.left]
    rw [hget]
    rfl
  exact C2_return_register_leak
    (.mk .int_lit none none none (.num 2) (some DATATYPE_CHAR))
    none none (.num 0) (some DATATYPE_CHAR)
    (cg_init_state [⟨"f", .func, DATATYPE_CHAR⟩])
    ⟨[false, true, true, true], [], 0, 0, true,
      [⟨"f", .func, DATATYPE_CHAR⟩]⟩
    (WFExpr.int_lit none (.num 2) (some DATATYPE_CHAR)) (by decide) h
